import Mathlib

/-!
ViewportWidget: a 3D viewport embedded in a 2D widget tree.

Shallow embedding of `Source/ViewportWidget/Private/ViewportWidgetModule.cpp`
together with the two public headers `SViewportWidget.h` and `ViewportWidget.h`.

Conventions of the embedding

* `float` values are exact rationals (`ℚ`), `int32` values are integers (`Int`).
* The engine types the plugin only passes around (`FTransform`) are a type
  parameter `T`; the engine functions the plugin calls on them are the fields of
  `Host`.  Every theorem holds for every host.
* The preview world is a record of the actors alive in it and the sequence of
  `DestroyActor` / `SpawnActor` calls made on it, so that the order of calls can
  be stated.
* A `TSharedPtr` / `TAttribute` that may be null / unset is an `Option`; a
  function that dereferences such a pointer without a test returns an `Option`.
-/

namespace ViewportWidget

/-! ## Engine value types -/

/-- Engine `FVector`, with exact components. -/
structure FVector where
  X : ℚ
  Y : ℚ
  Z : ℚ
  deriving DecidableEq

/-- Engine `FRotator`, with exact components. -/
structure FRotator where
  Pitch : ℚ
  Yaw : ℚ
  Roll : ℚ
  deriving DecidableEq

/-- Engine `FColor`: four 8-bit channels. -/
structure FColor where
  R : Nat
  G : Nat
  B : Nat
  A : Nat
  deriving DecidableEq

/-- Engine `FLinearColor`, with exact components. -/
structure FLinearColor where
  R : ℚ
  G : ℚ
  B : ℚ
  A : ℚ
  deriving DecidableEq

/-- The engine functions the widget code calls on values it does not own.
`Equals` is `FTransform::Equals`, `GetLocation` and `Rotator` are the accessors
of `FTransform`, `Identity` is `FTransform::Identity`, `LoadSynchronous` is
`TSoftClassPtr<AActor>::LoadSynchronous` (a soft class pointer is identified by
the number of its path, the result is the loaded class or null), and
`ReinterpretAsLinear` is `FColor::ReinterpretAsLinear`. -/
structure Host (T : Type) where
  Equals : T → T → Bool
  GetLocation : T → FVector
  Rotator : T → FRotator
  Identity : T
  LoadSynchronous : Nat → Option Nat
  ReinterpretAsLinear : FColor → FLinearColor

/-! ## The preview world -/

/-- A call the widget makes on the preview world. -/
inductive FWorldCall (T : Type) where
  | DestroyActor (actor : Nat) : FWorldCall T
  | SpawnActor (actorClass : Nat) (spawnTransform : T) (actor : Nat) : FWorldCall T

/-- Whether a world call is a `DestroyActor` call. -/
def FWorldCall.IsDestroy {T : Type} : FWorldCall T → Bool
  | .DestroyActor _ => true
  | .SpawnActor _ _ _ => false

/-- Whether a world call is a `SpawnActor` call. -/
def FWorldCall.IsSpawn {T : Type} : FWorldCall T → Bool
  | .DestroyActor _ => false
  | .SpawnActor _ _ _ => true

/-- Engine `UWorld` as the widget sees it.  Actors are numbered in the order the
world hands them out: `NextActor` is the number the next spawned actor gets,
`Actors` lists the actors that are alive and `Calls` records, oldest first, the
`DestroyActor` and `SpawnActor` calls made on the world. -/
structure UWorld (T : Type) where
  NextActor : Nat
  Actors : List Nat
  Calls : List (FWorldCall T)

/-- An actor is alive when it is among the actors of the world. -/
def UWorld.IsValidActor {T : Type} (w : UWorld T) (actor : Nat) : Bool :=
  w.Actors.contains actor

/-- Engine `UWorld::DestroyActor`: the actor leaves the world. -/
def UWorld.DestroyActor {T : Type} (w : UWorld T) (actor : Nat) : UWorld T :=
  { w with Actors := w.Actors.filter (fun b => b != actor),
           Calls := w.Calls ++ [FWorldCall.DestroyActor actor] }

/-- Engine `UWorld::SpawnActor` with `bNoFail` set: a fresh actor is handed out
and joins the world. -/
def UWorld.SpawnActor {T : Type} (w : UWorld T) (actorClass : Nat) (spawnTransform : T) :
    Nat × UWorld T :=
  (w.NextActor,
   { w with NextActor := w.NextActor + 1,
            Actors := w.Actors ++ [w.NextActor],
            Calls := w.Calls ++ [FWorldCall.SpawnActor actorClass spawnTransform w.NextActor] })

/-- Engine `TWeakObjectPtr<AActor>::Get`, resolved against the world the actors
of the widget live in: the actor when it is still alive, null otherwise. -/
def WeakGet {T : Type} (w : Option (UWorld T)) (p : Option Nat) : Option Nat :=
  match w, p with
  | some w, some a => if w.IsValidActor a then some a else none
  | _, _ => none

/-- Engine `TWeakObjectPtr<AActor>::IsValid`. -/
def WeakIsValid {T : Type} (w : Option (UWorld T)) (p : Option Nat) : Bool :=
  (WeakGet w p).isSome

/-- Engine `FPreviewScene`: the preview world and the lighting values the widget
sets on the scene; `CaptureUpdates` counts the `UpdateCaptureContents` calls. -/
structure FPreviewScene (T : Type) where
  World : Option (UWorld T)
  SkyBrightness : ℚ
  LightBrightness : ℚ
  LightDirection : FRotator
  CaptureUpdates : Nat

/-! ## Data model of the plugin -/

/-- Modelled from the spec: the struct `FViewportWidgetEntry` is declared in
`ViewportWidgetEntry.h`, which is not among the sources.  A viewport entry is
the "pairing of an actor class reference and a spawn transform, plus a
weak/back-reference to the actor instance once spawned".  The field names are
the ones the code uses; `ActorObjectPtr = none` is the null weak pointer. -/
structure FViewportWidgetEntry (T : Type) where
  ActorClassPtr : Nat
  SpawnTransform : T
  ActorObjectPtr : Option Nat

/-- Modelled from the spec: the class `FCustomUMGViewportClient` is declared in
`CustomViewportClient.h`, which is not among the sources.  The widget forwards
"simple property sets (background color, FOV, ...)" and the camera location and
rotation to it; the client holds the last value it was given. -/
structure FCustomUMGViewportClient where
  ViewLocation : FVector
  ViewRotation : FRotator
  BackgroundColor : FLinearColor
  ViewFOV : ℚ
  deriving DecidableEq

/-- Modelled from the spec: `FCustomUMGViewportClient::SetViewLocation`. -/
def FCustomUMGViewportClient.SetViewLocation (c : FCustomUMGViewportClient) (v : FVector) :
    FCustomUMGViewportClient :=
  { c with ViewLocation := v }

/-- Modelled from the spec: `FCustomUMGViewportClient::SetViewRotation`. -/
def FCustomUMGViewportClient.SetViewRotation (c : FCustomUMGViewportClient) (r : FRotator) :
    FCustomUMGViewportClient :=
  { c with ViewRotation := r }

/-- Modelled from the spec: `FCustomUMGViewportClient::SetBackgroundColor`. -/
def FCustomUMGViewportClient.SetBackgroundColor (c : FCustomUMGViewportClient)
    (color : FLinearColor) : FCustomUMGViewportClient :=
  { c with BackgroundColor := color }

/-- Modelled from the spec: `FCustomUMGViewportClient::SetViewFOV`. -/
def FCustomUMGViewportClient.SetViewFOV (c : FCustomUMGViewportClient) (fov : ℚ) :
    FCustomUMGViewportClient :=
  { c with ViewFOV := fov }

/-- State of an `SViewportWidget` after `SNew` has run its constructor and
`Construct`, so `Client` is never null.  `PreviewScene` is a shared pointer the
code tests for null, `ViewTransform` and `Entries` are attributes that may be
unset.  `SceneViewport` and `LastTickTime` take no part in the operations
embedded here. -/
structure SViewportWidget (T : Type) where
  Client : FCustomUMGViewportClient
  PreviewScene : Option (FPreviewScene T)
  ViewTransform : Option T
  Entries : Option (List (FViewportWidgetEntry T))

/-- The world of the expression `PreviewScene ? PreviewScene->GetWorld() : nullptr`. -/
def SViewportWidget.World {T : Type} (s : SViewportWidget T) : Option (UWorld T) :=
  match s.PreviewScene with
  | some ps => ps.World
  | none => none

/-! ## SViewportWidget -/

/-- The loop of `IsNotEqual` over two arrays of the same length. -/
def IsNotEqualLoop {T : Type} (H : Host T) :
    List (FViewportWidgetEntry T) → List (FViewportWidgetEntry T) → Bool
  | a :: A, b :: B =>
    if (a.ActorClassPtr != b.ActorClassPtr) || !(H.Equals a.SpawnTransform b.SpawnTransform) then
      true
    else
      IsNotEqualLoop H A B
  | _, _ => false

/-- Source function `IsNotEqual(A, B)`. -/
def IsNotEqual {T : Type} (H : Host T) (A B : List (FViewportWidgetEntry T)) : Bool :=
  if A.length != B.length then true else IsNotEqualLoop H A B

/-- Source function `SViewportWidget::SetViewTransform`. -/
def SViewportWidget.SetViewTransform {T : Type} (H : Host T) (s : SViewportWidget T)
    (viewTransform : T) : SViewportWidget T :=
  if (match s.ViewTransform with
      | none => true
      | some stored => !(H.Equals stored viewTransform)) then
    { s with
      ViewTransform := some viewTransform,
      Client := (s.Client.SetViewLocation (H.GetLocation viewTransform)).SetViewRotation
                  (H.Rotator viewTransform) }
  else
    s

/-- The loop of `SViewportWidget::CleanEntries`: destroy the actor of every
entry whose weak pointer still resolves, and reset every weak pointer. -/
def CleanEntriesLoop {T : Type} (w : UWorld T) :
    List (FViewportWidgetEntry T) → UWorld T × List (FViewportWidgetEntry T)
  | [] => (w, [])
  | e :: es =>
    let w1 := match WeakGet (some w) e.ActorObjectPtr with
      | some actor => w.DestroyActor actor
      | none => w
    let r := CleanEntriesLoop w1 es
    (r.1, { e with ActorObjectPtr := none } :: r.2)

/-- Source function `SViewportWidget::CleanEntries`. -/
def SViewportWidget.CleanEntries {T : Type} (s : SViewportWidget T) : SViewportWidget T :=
  match s.PreviewScene with
  | none => s
  | some ps =>
    match ps.World with
    | none => s
    | some world =>
      match s.Entries with
      | none => s
      | some es =>
        let r := CleanEntriesLoop world es
        { s with PreviewScene := some { ps with World := some r.1 }, Entries := some r.2 }

/-- The loop of `SViewportWidget::AddEntries`: spawn an actor for every entry
whose class loads and store it in the entry.  `SetupSpawnedActor` has an empty
body in this class. -/
def AddEntriesLoop {T : Type} (H : Host T) (w : UWorld T) :
    List (FViewportWidgetEntry T) → UWorld T × List (FViewportWidgetEntry T)
  | [] => (w, [])
  | e :: es =>
    match H.LoadSynchronous e.ActorClassPtr with
    | some actorClass =>
      let sp := w.SpawnActor actorClass e.SpawnTransform
      let r := AddEntriesLoop H sp.2 es
      (r.1, { e with ActorObjectPtr := some sp.1 } :: r.2)
    | none =>
      let r := AddEntriesLoop H w es
      (r.1, e :: r.2)

/-- Source function `SViewportWidget::AddEntries`. -/
def SViewportWidget.AddEntries {T : Type} (H : Host T) (s : SViewportWidget T) :
    SViewportWidget T :=
  match s.PreviewScene with
  | none => s
  | some ps =>
    match ps.World with
    | none => s
    | some world =>
      match s.Entries with
      | none => s
      | some es =>
        let r := AddEntriesLoop H world es
        { s with PreviewScene := some { ps with World := some r.1 }, Entries := some r.2 }

/-- The test of `SViewportWidget::SetEntries`:
`!Entries.IsSet() || IsNotEqual(Entries.Get(), entries)`. -/
def SViewportWidget.EntriesChanged {T : Type} (H : Host T) (s : SViewportWidget T)
    (entries : List (FViewportWidgetEntry T)) : Bool :=
  match s.Entries with
  | none => true
  | some stored => IsNotEqual H stored entries

/-- Source function `SViewportWidget::SetEntries`. -/
def SViewportWidget.SetEntries {T : Type} (H : Host T) (s : SViewportWidget T)
    (entries : List (FViewportWidgetEntry T)) : SViewportWidget T :=
  if s.EntriesChanged H entries then
    SViewportWidget.AddEntries H { s.CleanEntries with Entries := some entries }
  else
    s

/-- Engine `TArray::IsValidIndex`. -/
def IsValidIndex {α : Type} (xs : List α) (index : Int) : Bool :=
  decide (0 ≤ index) && decide (index < (xs.length : Int))

/-- Source function `SViewportWidget::GetSpawnedActor`: the weak pointer of the entry, or the
null weak pointer. -/
def SViewportWidget.GetSpawnedActor {T : Type} (s : SViewportWidget T) (entryIndex : Int) :
    Option Nat :=
  match s.Entries with
  | some es =>
    if IsValidIndex es entryIndex then
      match es[entryIndex.toNat]? with
      | some e => e.ActorObjectPtr
      | none => none
    else
      none
  | none => none

/-- Source function `SViewportWidget::SetViewportBackgroudColor`. -/
def SViewportWidget.SetViewportBackgroudColor {T : Type} (s : SViewportWidget T)
    (InColor : FLinearColor) : SViewportWidget T :=
  { s with Client := s.Client.SetBackgroundColor InColor }

/-- Source function `SViewportWidget::SetViewportFOV`. -/
def SViewportWidget.SetViewportFOV {T : Type} (s : SViewportWidget T) (InFOV : ℚ) :
    SViewportWidget T :=
  { s with Client := s.Client.SetViewFOV InFOV }

/-- Source function `SViewportWidget::SetViewportSkyBrightness`.  The preview scene is
dereferenced without a test: the result is `none` when it is null. -/
def SViewportWidget.SetViewportSkyBrightness {T : Type} (s : SViewportWidget T)
    (brightness : ℚ) : Option (SViewportWidget T) :=
  match s.PreviewScene with
  | some ps => some { s with PreviewScene := some { ps with SkyBrightness := brightness } }
  | none => none

/-- Source function `SViewportWidget::UpdateCapture`; `none` when the preview scene is null. -/
def SViewportWidget.UpdateCapture {T : Type} (s : SViewportWidget T) :
    Option (SViewportWidget T) :=
  match s.PreviewScene with
  | some ps =>
    some { s with PreviewScene := some { ps with CaptureUpdates := ps.CaptureUpdates + 1 } }
  | none => none

/-- Source function `SViewportWidget::SetViewportLightBrightness`; `none` when the preview
scene is null. -/
def SViewportWidget.SetViewportLightBrightness {T : Type} (s : SViewportWidget T)
    (brightness : ℚ) : Option (SViewportWidget T) :=
  match s.PreviewScene with
  | some ps => some { s with PreviewScene := some { ps with LightBrightness := brightness } }
  | none => none

/-- Source function `SViewportWidget::SetViewportLightDirection`; `none` when the preview
scene is null. -/
def SViewportWidget.SetViewportLightDirection {T : Type} (s : SViewportWidget T)
    (InLightDir : FRotator) : Option (SViewportWidget T) :=
  match s.PreviewScene with
  | some ps => some { s with PreviewScene := some { ps with LightDirection := InLightDir } }
  | none => none

/-! ## UViewportWidget -/

/-- State of a `UViewportWidget`: its properties, and the shared pointer
`MyViewport` to the Slate widget, null until `RebuildWidget` and after
`ReleaseSlateResources`. -/
structure UViewportWidget (T : Type) where
  BackgroundColor : FColor
  FOV : ℚ
  EnablePreviewLighting : Bool
  LightBrightness : ℚ
  LightDirection : FRotator
  SkyBrightness : ℚ
  MyViewport : Option (SViewportWidget T)
  ViewTransform : T
  Entries : List (FViewportWidgetEntry T)

/-- Source function `UViewportWidget::GetViewTransform`. -/
def UViewportWidget.GetViewTransform {T : Type} (u : UViewportWidget T) : T :=
  u.ViewTransform

/-- Source function `UViewportWidget::GetEntries`. -/
def UViewportWidget.GetEntries {T : Type} (u : UViewportWidget T) :
    List (FViewportWidgetEntry T) :=
  u.Entries

/-- Source function `UViewportWidget::SetViewTransform`. -/
def UViewportWidget.SetViewTransform {T : Type} (H : Host T) (u : UViewportWidget T)
    (viewTransform : T) : UViewportWidget T :=
  let u1 := { u with ViewTransform := viewTransform }
  match u1.MyViewport with
  | some v => { u1 with MyViewport := some (v.SetViewTransform H u1.ViewTransform) }
  | none => u1

/-- Source function `UViewportWidget::SetEntries`.  The Slate widget copies the array it is
given, so the property itself keeps the value assigned here. -/
def UViewportWidget.SetEntries {T : Type} (H : Host T) (u : UViewportWidget T)
    (entries : List (FViewportWidgetEntry T)) : UViewportWidget T :=
  let u1 := { u with Entries := entries }
  match u1.MyViewport with
  | some v => { u1 with MyViewport := some (v.SetEntries H u1.Entries) }
  | none => u1

/-- Source function `UViewportWidget::GetSpawnedActor`. -/
def UViewportWidget.GetSpawnedActor {T : Type} (u : UViewportWidget T) (entryIndex : Int) :
    Option Nat :=
  match u.MyViewport with
  | some v =>
    if WeakIsValid v.World (v.GetSpawnedActor entryIndex) then
      WeakGet v.World (v.GetSpawnedActor entryIndex)
    else
      none
  | none => none

/-- Source function `UViewportWidget::SynchronizeProperties`, after the call of the base class.
The result is `none` when a null preview scene is dereferenced. -/
def UViewportWidget.SynchronizeProperties {T : Type} (H : Host T) (u : UViewportWidget T) :
    Option (UViewportWidget T) :=
  match u.MyViewport with
  | none => some u
  | some v =>
    let v1 := v.SetViewTransform H u.ViewTransform
    let v2 := v1.SetEntries H u.Entries
    let linearColor := H.ReinterpretAsLinear u.BackgroundColor
    let v3 := v2.SetViewportBackgroudColor linearColor
    let v4 := v3.SetViewportFOV u.FOV
    if u.EnablePreviewLighting then
      (v4.SetViewportSkyBrightness u.SkyBrightness).bind fun v5 =>
      (v5.SetViewportLightBrightness u.LightBrightness).bind fun v6 =>
      (v6.SetViewportLightDirection u.LightDirection).bind fun v7 =>
      some { u with MyViewport := some v7 }
    else
      v4.UpdateCapture.bind fun v5 =>
      (v5.SetViewportSkyBrightness 0).bind fun v6 =>
      (v6.SetViewportLightBrightness 0).bind fun v7 =>
      some { u with MyViewport := some v7 }

/-! ## FCustomViewportClient -/

/-- The viewport types the code names; the enumeration itself is declared in
`CustomViewportClient.h`.  `CalcSceneView` handles each of them, so its
"unknown viewport type" assertion is not reached. -/
inductive ECustomViewportType where
  | CVT_Perspective
  | CVT_OrthoXY
  | CVT_OrthoXZ
  | CVT_OrthoYZ
  | CVT_OrthoNegativeXY
  | CVT_OrthoNegativeXZ
  | CVT_OrthoNegativeYZ
  | CVT_OrthoFreelook
  deriving DecidableEq

/-- Engine `EAspectRatioAxisConstraint`. -/
inductive EAspectRatioAxisConstraint where
  | AspectRatio_MaintainYFOV
  | AspectRatio_MaintainXFOV
  | AspectRatio_MajorAxisFOV
  deriving DecidableEq

/-- Engine `FIntPoint`. -/
structure FIntPoint where
  X : Int
  Y : Int
  deriving DecidableEq

/-- Engine `FIntRect`. -/
structure FIntRect where
  Min : FIntPoint
  Max : FIntPoint
  deriving DecidableEq

/-- Engine `FPlane`, a row of an `FMatrix`. -/
structure FPlane where
  X : ℚ
  Y : ℚ
  Z : ℚ
  W : ℚ
  deriving DecidableEq

/-- Engine `FMatrix`, given by its four rows. -/
structure FMatrix where
  Row0 : FPlane
  Row1 : FPlane
  Row2 : FPlane
  Row3 : FPlane
  deriving DecidableEq

/-- The view rotation matrix `CalcSceneView` leaves in the init options: for a
perspective viewport the engine's `CalcViewRotationMatrix` of the view rotation
times a fixed matrix (`Rotated`), otherwise a fixed matrix alone. -/
inductive FViewRotationMatrix where
  | Rotated (ViewRotation : FRotator) (Swap : FMatrix)
  | Fixed (M : FMatrix)
  deriving DecidableEq

/-- The arguments `CalcSceneView` gives to the engine's projection matrix
constructors `FReversedZPerspectiveMatrix` and `FReversedZOrthoMatrix`. -/
inductive FProjectionMatrix where
  | ReversedZPerspective (HalfFOVX HalfFOVY MultFOVX MultFOVY MinZ MaxZ : ℚ)
  | ReversedZOrtho (Width Height ZScale ZOffset : ℚ)
  deriving DecidableEq

/-- The fields of the engine's `FSceneViewInitOptions` that `CalcSceneView`
computes from the viewport size and the clip planes.  `ProjectionMatrix` is
`none` when an argument has no exact value (a division by zero). -/
structure FSceneViewInitOptions where
  ViewRect : FIntRect
  ViewRotationMatrix : FViewRotationMatrix
  ProjectionMatrix : Option FProjectionMatrix
  FOV : ℚ
  OverrideFarClippingPlaneDistance : ℚ
  deriving DecidableEq

/-- Engine constants used by the client: the macros `PI` and `WORLD_MAX`. -/
structure FEngineConstants where
  PI : ℚ
  WORLD_MAX : ℚ

/-- Engine `EViewModeIndex`, by the number of the enumerator. -/
abbrev EViewModeIndex := Nat

/-- Engine `FName`; `none` is `NAME_None`. -/
abbrev FName := Option Nat

/-- Engine `FEngineShowFlags`: the flags `SetGameView` reads or writes by name,
and the remaining flags of the bitset as a list. -/
structure FEngineShowFlags where
  Game : Bool
  CompositeEditorPrimitives : Bool
  ModeWidgets : Bool
  Selection : Bool
  SelectionOutline : Bool
  Others : List Bool
  deriving DecidableEq

/-- The members of `FCustomViewportClient` that the camera, screen percentage,
view mode and game view code reads and writes.  `ViewRotation` is the rotation
of the current camera transform, `PreviewResolutionFraction` is a
`TOptional<float>`, `ViewModeParamNameMap` is a `TMap<int32, FName>`. -/
structure FCustomViewportClient where
  ViewportType : ECustomViewportType
  ViewRotation : FRotator
  ViewFOV : ℚ
  NearPlane : ℚ
  FarPlane : ℚ
  PreviewResolutionFraction : Option ℚ
  PerspViewModeIndex : EViewModeIndex
  OrthoViewModeIndex : EViewModeIndex
  ViewModeParam : Int
  ViewModeParamName : FName
  ViewModeParamNameMap : List (Int × FName)
  bForcingUnlitForNewMap : Bool
  EngineShowFlags : FEngineShowFlags
  LastEngineShowFlags : FEngineShowFlags
  bInGameViewMode : Bool

/-- Source function `ComputeOrthoZoomFactor`. -/
def ComputeOrthoZoomFactor (ViewportWidth : ℚ) : ℚ :=
  ViewportWidth / 500

/-- Source function `FCustomViewportClient::GetOrthoUnitsPerPixel` on a viewport of the given
size; `none` when the width is zero, where the quotient has no exact value. -/
def GetOrthoUnitsPerPixel (InViewportSize : FIntPoint) : Option ℚ :=
  let SizeX : ℚ := (InViewportSize.X : ℚ)
  if SizeX * 15 = 0 then none
  else some ((1 / (SizeX * 15)) * ComputeOrthoZoomFactor SizeX)

/-- The fixed matrix of the "rotate view 90 degrees" step. -/
def AxisSwapMatrix : FMatrix :=
  { Row0 := ⟨0, 0, 1, 0⟩, Row1 := ⟨1, 0, 0, 0⟩, Row2 := ⟨0, 1, 0, 0⟩, Row3 := ⟨0, 0, 0, 1⟩ }

/-- The view rotation matrix `CalcSceneView` computes for each viewport type:
the rotated and axis-swapped matrix of the perspective branch, and the fixed
matrix of each `else if` of the orthographic branch. -/
def CalcViewRotation (ModifiedViewRotation : FRotator) :
    ECustomViewportType → FViewRotationMatrix
  | .CVT_Perspective => .Rotated ModifiedViewRotation AxisSwapMatrix
  | .CVT_OrthoXY => .Fixed
    { Row0 := ⟨1, 0, 0, 0⟩, Row1 := ⟨0, -1, 0, 0⟩, Row2 := ⟨0, 0, -1, 0⟩, Row3 := ⟨0, 0, 0, 1⟩ }
  | .CVT_OrthoXZ => .Fixed
    { Row0 := ⟨1, 0, 0, 0⟩, Row1 := ⟨0, 0, -1, 0⟩, Row2 := ⟨0, 1, 0, 0⟩, Row3 := ⟨0, 0, 0, 1⟩ }
  | .CVT_OrthoYZ => .Fixed
    { Row0 := ⟨0, 0, 1, 0⟩, Row1 := ⟨1, 0, 0, 0⟩, Row2 := ⟨0, 1, 0, 0⟩, Row3 := ⟨0, 0, 0, 1⟩ }
  | .CVT_OrthoNegativeXY => .Fixed
    { Row0 := ⟨-1, 0, 0, 0⟩, Row1 := ⟨0, -1, 0, 0⟩, Row2 := ⟨0, 0, 1, 0⟩, Row3 := ⟨0, 0, 0, 1⟩ }
  | .CVT_OrthoNegativeXZ => .Fixed
    { Row0 := ⟨-1, 0, 0, 0⟩, Row1 := ⟨0, 0, 1, 0⟩, Row2 := ⟨0, 1, 0, 0⟩, Row3 := ⟨0, 0, 0, 1⟩ }
  | .CVT_OrthoNegativeYZ => .Fixed
    { Row0 := ⟨0, 0, -1, 0⟩, Row1 := ⟨-1, 0, 0, 0⟩, Row2 := ⟨0, 1, 0, 0⟩, Row3 := ⟨0, 0, 0, 1⟩ }
  | .CVT_OrthoFreelook => .Fixed
    { Row0 := ⟨0, 0, 1, 0⟩, Row1 := ⟨1, 0, 0, 0⟩, Row2 := ⟨0, 1, 0, 0⟩, Row3 := ⟨0, 0, 0, 1⟩ }

/-- Engine `FSceneViewInitOptions::IsValidViewRectangle`. -/
def IsValidViewRectangle (r : FIntRect) : Bool :=
  decide (0 ≤ r.Min.X) && decide (0 ≤ r.Min.Y) &&
    decide (0 < r.Max.X - r.Min.X) && decide (0 < r.Max.Y - r.Min.Y)

/-- The size `CalcSceneView` works with: each dimension of the size the
viewport reports, raised to at least 1. -/
def ClampViewportSize (RawSize : FIntPoint) : FIntPoint :=
  { X := max RawSize.X 1, Y := max RawSize.Y 1 }

/-- The perspective branch of `CalcSceneView`: the arguments of the projection
matrix.  `NearClip` is the value of `GetNearClipPlane()`. -/
def PerspectiveProjection (K : FEngineConstants) (NearClip ModifiedViewFOV : ℚ)
    (AspectRatioAxisConstraint : EAspectRatioAxisConstraint) (ViewportSize : FIntPoint) :
    FProjectionMatrix :=
  let MinZ := NearClip
  let MaxZ := MinZ
  let MatrixFOV := max (1 / 1000) ModifiedViewFOV * K.PI / 360
  let wide : Bool :=
    (decide (ViewportSize.X > ViewportSize.Y) &&
        decide (AspectRatioAxisConstraint = .AspectRatio_MajorAxisFOV)) ||
      decide (AspectRatioAxisConstraint = .AspectRatio_MaintainXFOV)
  let XAxisMultiplier : ℚ := if wide then 1 else (ViewportSize.Y : ℚ) / (ViewportSize.X : ℚ)
  let YAxisMultiplier : ℚ := if wide then (ViewportSize.X : ℚ) / (ViewportSize.Y : ℚ) else 1
  .ReversedZPerspective MatrixFOV MatrixFOV XAxisMultiplier YAxisMultiplier MinZ MaxZ

/-- The orthographic branch of `CalcSceneView`: the arguments of the projection
matrix.  The zoom is taken from the size the viewport reports, the extents from
the clamped size. -/
def OrthoProjection (K : FEngineConstants) (RawSize ViewportSize : FIntPoint) :
    Option FProjectionMatrix :=
  let ZScale := (1 / 2) / K.WORLD_MAX
  let ZOffset := K.WORLD_MAX
  (GetOrthoUnitsPerPixel RawSize).map fun Zoom =>
    let OrthoWidth := Zoom * (ViewportSize.X : ℚ) / 2
    let OrthoHeight := Zoom * (ViewportSize.Y : ℚ) / 2
    .ReversedZOrtho OrthoWidth OrthoHeight ZScale ZOffset

/-- Source function `FCustomViewportClient::CalcSceneView`, up to the
construction of the view: the init options for a viewport reporting the size
`RawSize`.  `NearClip` is the value of `GetNearClipPlane()`, which is declared
in `CustomViewportClient.h`.  The projection matrix and the view rotation matrix
written before the branch on the viewport type are overwritten in both
branches. -/
def CalcSceneView (K : FEngineConstants) (NearClip : ℚ) (c : FCustomViewportClient)
    (RawSize : FIntPoint) : FSceneViewInitOptions :=
  let ModifiedViewRotation := c.ViewRotation
  let ModifiedViewFOV := c.ViewFOV
  let ViewportSize := ClampViewportSize RawSize
  let ViewportOffset : FIntPoint := ⟨0, 0⟩
  let ViewRect : FIntRect :=
    ⟨ViewportOffset, ⟨ViewportOffset.X + ViewportSize.X, ViewportOffset.Y + ViewportSize.Y⟩⟩
  let AspectRatioAxisConstraint := EAspectRatioAxisConstraint.AspectRatio_MajorAxisFOV
  let ViewRotationMatrix : FViewRotationMatrix :=
    CalcViewRotation ModifiedViewRotation c.ViewportType
  let ProjectionMatrix : Option FProjectionMatrix :=
    if c.ViewportType = .CVT_Perspective then
      some (PerspectiveProjection K NearClip ModifiedViewFOV
        AspectRatioAxisConstraint ViewportSize)
    else
      OrthoProjection K RawSize ViewportSize
  { ViewRect := if !(IsValidViewRectangle ViewRect) then ⟨⟨0, 0⟩, ⟨1, 1⟩⟩ else ViewRect,
    ViewRotationMatrix := ViewRotationMatrix,
    ProjectionMatrix := ProjectionMatrix,
    FOV := ModifiedViewFOV,
    OverrideFarClippingPlaneDistance := c.FarPlane }

/-- Engine `FMath::Clamp`. -/
def Clamp (X Min Max : ℚ) : ℚ :=
  if X < Min then Min else if X < Max then X else Max

/-- Engine `FMath::RoundToInt`: the floor of the value plus one half. -/
def RoundToInt (F : ℚ) : Int :=
  Int.floor (F + 1 / 2)

/-- Source function `FCustomViewportClient::GetPreviewScreenPercentage`. -/
def FCustomViewportClient.GetPreviewScreenPercentage (c : FCustomViewportClient) : Int :=
  let ResolutionFraction : ℚ :=
    match c.PreviewResolutionFraction with
    | some f => f
    | none => 1
  RoundToInt (Clamp ResolutionFraction (1 / 10) 4 * 100)

/-- Source function `FCustomViewportClient::SetPreviewScreenPercentage`. -/
def FCustomViewportClient.SetPreviewScreenPercentage (c : FCustomViewportClient)
    (PreviewScreenPercentage : Int) : FCustomViewportClient :=
  let AutoResolutionFraction : ℚ := 1
  let AutoScreenPercentage : Int := RoundToInt (Clamp AutoResolutionFraction (1 / 10) 4 * 100)
  let NewResolutionFraction : ℚ := (PreviewScreenPercentage : ℚ) / 100
  if NewResolutionFraction ≥ 1 / 10 ∧ NewResolutionFraction ≤ 4 ∧
      PreviewScreenPercentage ≠ AutoScreenPercentage then
    { c with PreviewResolutionFraction := some NewResolutionFraction }
  else
    { c with PreviewResolutionFraction := none }

/-- The far clip argument of a perspective projection matrix. -/
def FProjectionMatrix.PerspectiveMaxZ : FProjectionMatrix → Option ℚ
  | .ReversedZPerspective _ _ _ _ _ MaxZ => some MaxZ
  | .ReversedZOrtho _ _ _ _ => none

/-- The near clip argument of a perspective projection matrix. -/
def FProjectionMatrix.PerspectiveMinZ : FProjectionMatrix → Option ℚ
  | .ReversedZPerspective _ _ _ _ MinZ _ => some MinZ
  | .ReversedZOrtho _ _ _ _ => none

/-- The half extents `(OrthoWidth, OrthoHeight)` of an orthographic projection matrix. -/
def FProjectionMatrix.OrthoExtents : FProjectionMatrix → Option (ℚ × ℚ)
  | .ReversedZPerspective _ _ _ _ _ _ => none
  | .ReversedZOrtho Width Height _ _ => some (Width, Height)

/-- The part of an entry that the caller requests: its class and its transform. -/
def FViewportWidgetEntry.Request {T : Type} (e : FViewportWidgetEntry T) : Nat × T :=
  (e.ActorClassPtr, e.SpawnTransform)

/-- The entry with its weak pointer reset. -/
def FViewportWidgetEntry.ResetActor {T : Type} (e : FViewportWidgetEntry T) :
    FViewportWidgetEntry T :=
  { e with ActorObjectPtr := none }

/-- Whether the class of an entry loads. -/
def Host.Loads {T : Type} (H : Host T) (e : FViewportWidgetEntry T) : Bool :=
  (H.LoadSynchronous e.ActorClassPtr).isSome

/-- The preview scene behind a UMG widget, when it has a viewport with a scene. -/
def UViewportWidget.Scene {T : Type} (u : UViewportWidget T) : Option (FPreviewScene T) :=
  u.MyViewport.bind SViewportWidget.PreviewScene

/-- The rectangle `CalcSceneView` passes to `SetViewRectangle` before the
validity test: from the offset (0, 0) to the offset plus the clamped size. -/
def CalcViewRect (RawSize : FIntPoint) : FIntRect :=
  let ViewportSize := ClampViewportSize RawSize
  let ViewportOffset : FIntPoint := ⟨0, 0⟩
  ⟨ViewportOffset, ⟨ViewportOffset.X + ViewportSize.X, ViewportOffset.Y + ViewportSize.Y⟩⟩

/-- The axis multipliers `(XAxisMultiplier, YAxisMultiplier)` of a perspective
projection matrix. -/
def FProjectionMatrix.PerspectiveMultipliers : FProjectionMatrix → Option (ℚ × ℚ)
  | .ReversedZPerspective _ _ MultFOVX MultFOVY _ _ => some (MultFOVX, MultFOVY)
  | .ReversedZOrtho _ _ _ _ => none

/-- The half angles `(HalfFOVX, HalfFOVY)` of a perspective projection matrix. -/
def FProjectionMatrix.PerspectiveHalfFOV : FProjectionMatrix → Option (ℚ × ℚ)
  | .ReversedZPerspective HalfFOVX HalfFOVY _ _ _ _ => some (HalfFOVX, HalfFOVY)
  | .ReversedZOrtho _ _ _ _ => none

/-- The expression `FMath::Max(0.001f, ModifiedViewFOV) * (float)PI / 360.0f`
of `CalcSceneView`, over any ordered field; the code evaluates it over the
rationals with the constant of `FEngineConstants`. -/
def MatrixFOV {F : Type} [LinearOrderedField F] (PI ModifiedViewFOV : F) : F :=
  max (1 / 1000) ModifiedViewFOV * PI / 360

/-! ## The view rotation matrix as a matrix of numbers -/

/-- The upper left 3x3 part of an `FMatrix`: entry `(i, j)` is `M[i][j]`. -/
def FMatrix.Rotation3 (M : FMatrix) : Matrix (Fin 3) (Fin 3) ℚ :=
  Matrix.of fun i j =>
    match i, j with
    | 0, 0 => M.Row0.X
    | 0, 1 => M.Row0.Y
    | 0, 2 => M.Row0.Z
    | 1, 0 => M.Row1.X
    | 1, 1 => M.Row1.Y
    | 1, 2 => M.Row1.Z
    | 2, 0 => M.Row2.X
    | 2, 1 => M.Row2.Y
    | 2, 2 => M.Row2.Z

/-- Column `j` of the 3x3 part of an `FMatrix`: the world-space direction that
maps to view-space axis `j` (0 is right, 1 is up, 2 is depth). -/
def FMatrix.Column3 (M : FMatrix) (j : Fin 3) : Fin 3 → ℚ :=
  fun i => M.Rotation3 i j

/-- The last row of an `FMatrix` is (0, 0, 0, 1) and so is its last column. -/
def FMatrix.HasUnitLastRowAndColumn (M : FMatrix) : Prop :=
  M.Row3 = ⟨0, 0, 0, 1⟩ ∧ M.Row0.W = 0 ∧ M.Row1.W = 0 ∧ M.Row2.W = 0

/-- A 3x3 matrix is a signed permutation matrix: every entry is 0, 1 or -1, and
every row and every column has exactly one entry other than 0. -/
def IsSignedPermutation (R : Matrix (Fin 3) (Fin 3) ℚ) : Prop :=
  (∀ i j, R i j = 0 ∨ R i j = 1 ∨ R i j = -1) ∧
  (∀ i, ∃ j, R i j ≠ 0 ∧ ∀ k, R i k ≠ 0 → k = j) ∧
  (∀ j, ∃ i, R i j ≠ 0 ∧ ∀ k, R k j ≠ 0 → k = i)

/-- The six fixed orthographic axis variants. -/
def IsFixedOrtho : ECustomViewportType → Bool
  | .CVT_OrthoXY => true
  | .CVT_OrthoXZ => true
  | .CVT_OrthoYZ => true
  | .CVT_OrthoNegativeXY => true
  | .CVT_OrthoNegativeXZ => true
  | .CVT_OrthoNegativeYZ => true
  | .CVT_Perspective => false
  | .CVT_OrthoFreelook => false

/-- The Negative counterpart of each positive orthographic variant. -/
def NegativeVariant : ECustomViewportType → Option ECustomViewportType
  | .CVT_OrthoXY => some .CVT_OrthoNegativeXY
  | .CVT_OrthoXZ => some .CVT_OrthoNegativeXZ
  | .CVT_OrthoYZ => some .CVT_OrthoNegativeYZ
  | _ => none

/-! ## View modes and game view -/

/-- The part of the client that lives in `CustomViewportClient.h` or in the
engine and is not among the sources: the engine function `ApplyViewMode`, the
show flags `FEngineShowFlags(ESFIM_Game)` and `FEngineShowFlags(ESFIM_Editor)`,
and the method `GetViewMode`. -/
structure FViewModeHost where
  ApplyViewMode : EViewModeIndex → Bool → FEngineShowFlags → FEngineShowFlags
  GameDefaults : FEngineShowFlags
  EditorDefaults : FEngineShowFlags
  GetViewMode : FCustomViewportClient → EViewModeIndex

/-- The method `GetViewportType`, declared in `CustomViewportClient.h`; as in
`CalcSceneView` above it is taken to return the member `ViewportType`. -/
def FCustomViewportClient.GetViewportType (c : FCustomViewportClient) : ECustomViewportType :=
  c.ViewportType

/-- Source function `FCustomViewportClient::IsPerspective`. -/
def FCustomViewportClient.IsPerspective (c : FCustomViewportClient) : Bool :=
  decide (c.GetViewportType = .CVT_Perspective)

/-- Source function `FCustomViewportClient::SetViewMode`.  The final
`Invalidate()` acts on the viewport, not on the client. -/
def FCustomViewportClient.SetViewMode (V : FViewModeHost) (c : FCustomViewportClient)
    (InViewModeIndex : EViewModeIndex) : FCustomViewportClient :=
  let c1 := { c with ViewModeParam := -1, ViewModeParamName := none, ViewModeParamNameMap := [] }
  if c1.IsPerspective then
    let c2 := { c1 with PerspViewModeIndex := InViewModeIndex }
    { c2 with EngineShowFlags := V.ApplyViewMode c2.PerspViewModeIndex true c2.EngineShowFlags,
              bForcingUnlitForNewMap := false }
  else
    let c2 := { c1 with OrthoViewModeIndex := InViewModeIndex }
    { c2 with EngineShowFlags := V.ApplyViewMode c2.OrthoViewModeIndex false c2.EngineShowFlags }

/-- The first part of `FCustomViewportClient::SetGameView`, up to the call of
`ApplyViewMode`: pick the game and the editor flags, swap them according to
the argument, restore `CompositeEditorPrimitives` in both, and reset the
selection flags. -/
def FCustomViewportClient.SetGameViewFlags (V : FViewModeHost) (c : FCustomViewportClient)
    (bGameViewEnable : Bool) : FCustomViewportClient :=
  let bCompositeEditorPrimitives := c.EngineShowFlags.CompositeEditorPrimitives
  let GameFlags : FEngineShowFlags :=
    if c.EngineShowFlags.Game then c.EngineShowFlags
    else if c.LastEngineShowFlags.Game then c.LastEngineShowFlags
    else V.GameDefaults
  let EditorFlags : FEngineShowFlags :=
    if c.EngineShowFlags.Game then c.LastEngineShowFlags
    else if c.LastEngineShowFlags.Game then c.EngineShowFlags
    else V.EditorDefaults
  let E1 := if bGameViewEnable then GameFlags else EditorFlags
  let L1 := if bGameViewEnable then EditorFlags else GameFlags
  let E2 := { E1 with CompositeEditorPrimitives := bCompositeEditorPrimitives }
  let L2 := { L1 with CompositeEditorPrimitives := bCompositeEditorPrimitives }
  let E3 := if bGameViewEnable then { E2 with ModeWidgets := false, Selection := false } else E2
  let E4 := { E3 with SelectionOutline := false }
  { c with EngineShowFlags := E4, LastEngineShowFlags := L2 }

/-- Source function `FCustomViewportClient::SetGameView`.  The final
`Invalidate()` acts on the viewport, not on the client. -/
def FCustomViewportClient.SetGameView (V : FViewModeHost) (c : FCustomViewportClient)
    (bGameViewEnable : Bool) : FCustomViewportClient :=
  let c1 := c.SetGameViewFlags V bGameViewEnable
  let c2 := { c1 with
    EngineShowFlags := V.ApplyViewMode (V.GetViewMode c1) c1.IsPerspective c1.EngineShowFlags }
  { c2 with bInGameViewMode := bGameViewEnable }

/-! ## Lengths as text -/

/-- Engine `FMath::TruncToInt`: the integer part, rounding toward zero. -/
def TruncToInt (F : ℚ) : Int :=
  if 0 ≤ F then Int.floor F else Int.ceil F

/-- The exact value of `FMath::TruncToInt(FMath::LogX(10.0f, U))` for a
positive `U`: the largest `k` with `10^k ≤ U` when `1 ≤ U`, and minus the
largest `k` with `10^k ≤ 1/U` otherwise. -/
def TruncLog10 (U : ℚ) : Int :=
  if 1 ≤ U then (Nat.log 10 (Int.floor U).toNat : Int)
  else -(Nat.log 10 (Int.floor (1 / U)).toNat : Int)

/-- Engine `FMath::Fmod`: the remainder with the sign of the dividend. -/
def Fmod (X Y : ℚ) : ℚ :=
  X - (TruncToInt (X / Y) : ℚ) * Y

/-- The arguments of the `FString::Printf` that ends `UnrealUnitsToSiUnits`:
`Approximation` tells whether the prefix is the tilde, `ScaledNumber` is the
number printed, with one decimal when `OneDecimal` and as an integer otherwise,
`Exponent` gives the text of the exponent (three times `Exponent`, printed when
`Exponent` is positive), and `UnitIndex` is the index into the units cm, m, km. -/
structure FSiUnitsText where
  Approximation : Bool
  ScaledNumber : ℚ
  OneDecimal : Bool
  Exponent : Int
  UnitIndex : Int
  deriving DecidableEq

/-- Source function `FCustomViewportClient::UnrealUnitsToSiUnits`, up to the
final `Printf`.  `KINDA_SMALL_NUMBER` is an engine macro.  `Rounded` is an
`int32`, so the product assigned to it is truncated toward zero. -/
def UnrealUnitsToSiUnits (KINDA_SMALL_NUMBER : ℚ) (UnrealUnits : ℚ) : FSiUnitsText :=
  let UnrealUnits := UnrealUnits * 10
  let OrderOfMagnitude : Int := if UnrealUnits > 0 then TruncLog10 UnrealUnits else 0
  let Exponent : Int := Int.tdiv (OrderOfMagnitude - 6) 3
  let OrderOfThousands : Int := Int.tdiv OrderOfMagnitude 3
  let ScaledNumber : ℚ :=
    if OrderOfThousands ≠ 0 then UnrealUnits / (1000 : ℚ) ^ OrderOfThousands else UnrealUnits
  let ScaledOrder : Int := Int.tmod OrderOfMagnitude (max OrderOfThousands 1 * 3)
  let RoundingDivisor : ℚ := (10 : ℚ) ^ ScaledOrder / 10
  let Rounded : Int :=
    TruncToInt ((TruncToInt (ScaledNumber / RoundingDivisor) : ℚ) * RoundingDivisor)
  let Approximate : Bool := decide (ScaledNumber - (Rounded : ℚ) > KINDA_SMALL_NUMBER)
  let ScaledNumber : ℚ := if Approximate then (Rounded : ℚ) else ScaledNumber
  let ScaledNumber : ℚ := if OrderOfMagnitude ≤ 2 then ScaledNumber / 10 else ScaledNumber
  { Approximation := Approximate,
    ScaledNumber := ScaledNumber,
    OneDecimal := decide (Fmod ScaledNumber 1 > KINDA_SMALL_NUMBER),
    Exponent := Exponent,
    UnitIndex := min OrderOfThousands 2 }

/-- The claim's reading of "round to 2 S.F.", for comparison with the code: a
positive number truncated to two significant figures. -/
def SpecTruncateToTwoSignificantFigures (X : ℚ) : ℚ :=
  let Order : Int :=
    if 1 ≤ X then (Nat.log 10 (Int.floor X).toNat : Int)
    else -(Nat.clog 10 (Int.ceil (1 / X)).toNat : Int)
  (Int.floor (X / (10 : ℚ) ^ (Order - 1)) : ℚ) * (10 : ℚ) ^ (Order - 1)

/-! ## Sample values used to exercise the theorems -/

/-- A host whose transforms are numbers compared exactly and whose soft class
pointer `0` is the null pointer. -/
def sampleHost : Host Nat where
  Equals := fun a b => a == b
  GetLocation := fun t => ⟨t, 0, 0⟩
  Rotator := fun t => ⟨0, t, 0⟩
  Identity := 0
  LoadSynchronous := fun p => if p = 0 then none else some p
  ReinterpretAsLinear := fun c => ⟨c.R / 255, c.G / 255, c.B / 255, c.A / 255⟩

/-- A world with two live actors, numbered 0 and 1. -/
def sampleWorld : UWorld Nat :=
  { NextActor := 2, Actors := [0, 1], Calls := [] }

/-- A preview scene around `sampleWorld`. -/
def sampleScene : FPreviewScene Nat :=
  { World := some sampleWorld, SkyBrightness := 1, LightBrightness := 3,
    LightDirection := ⟨0, 0, 0⟩, CaptureUpdates := 0 }

/-- A client looking from the origin. -/
def sampleUMGClient : FCustomUMGViewportClient :=
  { ViewLocation := ⟨0, 0, 0⟩, ViewRotation := ⟨0, 0, 0⟩,
    BackgroundColor := ⟨0, 0, 0, 1⟩, ViewFOV := 90 }

/-- A widget that stores two entries with their spawned actors 0 and 1. -/
def sampleWidget : SViewportWidget Nat :=
  { Client := sampleUMGClient, PreviewScene := some sampleScene, ViewTransform := some 7,
    Entries := some [⟨5, 10, some 0⟩, ⟨6, 11, some 1⟩] }

/-- A requested list whose first entry has the null class and whose second
entry has a class that loads. -/
def sampleEntries : List (FViewportWidgetEntry Nat) :=
  [⟨0, 1, none⟩, ⟨3, 4, some 1⟩]

/-- A widget like `sampleWidget` whose preview scene has no world. -/
def worldlessWidget : SViewportWidget Nat :=
  { sampleWidget with PreviewScene := some { sampleScene with World := none } }

/-- A UMG widget around `sampleWidget`, with preview lighting switched off. -/
def sampleUWidget : UViewportWidget Nat :=
  { BackgroundColor := ⟨255, 0, 0, 255⟩, FOV := 60, EnablePreviewLighting := false,
    LightBrightness := 3, LightDirection := ⟨10, 20, 30⟩, SkyBrightness := 1,
    MyViewport := some sampleWidget, ViewTransform := 8, Entries := [⟨9, 12, none⟩] }

/-- A UMG widget like `sampleUWidget` with preview lighting switched on. -/
def litUWidget : UViewportWidget Nat :=
  { sampleUWidget with EnablePreviewLighting := true }

/-- Engine constants with a rational stand-in for `PI`. -/
def sampleConstants : FEngineConstants :=
  { PI := 22 / 7, WORLD_MAX := 2097152 }

/-- Show flags of an editor view that composites editor primitives. -/
def sampleEditorFlags : FEngineShowFlags :=
  { Game := false, CompositeEditorPrimitives := true, ModeWidgets := true, Selection := true,
    SelectionOutline := true, Others := [true, false] }

/-- Show flags of a game view that does not composite editor primitives. -/
def sampleGameFlags : FEngineShowFlags :=
  { Game := true, CompositeEditorPrimitives := false, ModeWidgets := false, Selection := false,
    SelectionOutline := false, Others := [false, false] }

/-- A perspective client with a far plane of 1000, in editor view, with a view
mode parameter selected. -/
def sampleClient : FCustomViewportClient :=
  { ViewportType := .CVT_Perspective, ViewRotation := ⟨0, 0, 0⟩, ViewFOV := 90,
    NearPlane := -1, FarPlane := 1000, PreviewResolutionFraction := none,
    PerspViewModeIndex := 3, OrthoViewModeIndex := 0, ViewModeParam := 2,
    ViewModeParamName := some 5, ViewModeParamNameMap := [(2, some 5)],
    bForcingUnlitForNewMap := true, EngineShowFlags := sampleEditorFlags,
    LastEngineShowFlags := sampleGameFlags, bInGameViewMode := false }

/-- A host whose `ApplyViewMode` records the view mode in the remaining flags
and leaves the named flags alone. -/
def sampleViewModeHost : FViewModeHost :=
  { ApplyViewMode := fun m p f => { f with Others := [decide (m = 0), p] },
    GameDefaults := sampleGameFlags,
    EditorDefaults := sampleEditorFlags,
    GetViewMode := fun c => if c.IsPerspective then c.PerspViewModeIndex else c.OrthoViewModeIndex }

/-- A client like `sampleClient` with a top-down orthographic viewport. -/
def orthoClient : FCustomViewportClient :=
  { sampleClient with ViewportType := .CVT_OrthoXY }

end ViewportWidget

/-! # Theorems -/

namespace ViewportWidget

/-! ## The loops of `CleanEntries` and `AddEntries` -/

theorem WeakGet_some_iff {T : Type} (w : UWorld T) (p : Option Nat) (a : Nat) :
    WeakGet (some w) p = some a ↔ p = some a ∧ a ∈ w.Actors := by
  cases p with
  | none => simp [WeakGet]
  | some b =>
    by_cases hb : b ∈ w.Actors
    · simp [WeakGet, UWorld.IsValidActor, hb]
      intro h; subst h; exact hb
    · simp [WeakGet, UWorld.IsValidActor, hb]
      intro h; subst h; exact hb

theorem WeakGet_none_iff {T : Type} (w : UWorld T) (p : Option Nat) :
    WeakGet (some w) p = none ↔ ∀ a, p = some a → a ∉ w.Actors := by
  cases p with
  | none => simp [WeakGet]
  | some b =>
    by_cases hb : b ∈ w.Actors
    · simp [WeakGet, UWorld.IsValidActor, hb]
    · simp [WeakGet, UWorld.IsValidActor, hb]

theorem CleanEntriesLoop_entries {T : Type} (w : UWorld T) (es : List (FViewportWidgetEntry T)) :
    (CleanEntriesLoop w es).2 = es.map FViewportWidgetEntry.ResetActor := by
  induction es generalizing w with
  | nil => rfl
  | cons e es ih => simp [CleanEntriesLoop, ih, FViewportWidgetEntry.ResetActor]

theorem CleanEntriesLoop_next {T : Type} (w : UWorld T) (es : List (FViewportWidgetEntry T)) :
    (CleanEntriesLoop w es).1.NextActor = w.NextActor := by
  induction es generalizing w with
  | nil => rfl
  | cons e es ih =>
    simp only [CleanEntriesLoop]
    rw [ih]
    cases WeakGet (some w) e.ActorObjectPtr <;> rfl

/-- The calls of the clean loop: one `DestroyActor` for each live actor the
entries refer to, and nothing else; exactly those actors leave the world. -/
theorem CleanEntriesLoop_calls {T : Type} (w : UWorld T) (es : List (FViewportWidgetEntry T)) :
    ∃ ds : List Nat,
      (CleanEntriesLoop w es).1.Calls = w.Calls ++ ds.map FWorldCall.DestroyActor ∧
      ds.Nodup ∧
      (∀ b, b ∈ ds ↔ (b ∈ w.Actors ∧ ∃ e ∈ es, e.ActorObjectPtr = some b)) ∧
      (∀ b, b ∈ (CleanEntriesLoop w es).1.Actors ↔ (b ∈ w.Actors ∧ b ∉ ds)) := by
  induction es generalizing w with
  | nil => exact ⟨[], by simp [CleanEntriesLoop]⟩
  | cons e es ih =>
    simp only [CleanEntriesLoop]
    cases hg : WeakGet (some w) e.ActorObjectPtr with
    | none =>
      obtain ⟨ds, hc, hn, hm, ha⟩ := ih w
      refine ⟨ds, hc, hn, ?_, ha⟩
      intro b
      rw [hm b]
      have hnone := (WeakGet_none_iff w e.ActorObjectPtr).1 hg
      constructor
      · rintro ⟨hb, e', he', hp⟩
        exact ⟨hb, e', List.mem_cons_of_mem _ he', hp⟩
      · rintro ⟨hb, e', he', hp⟩
        rcases List.mem_cons.1 he' with h | h
        · subst h; exact absurd hb (hnone b hp)
        · exact ⟨hb, e', h, hp⟩
    | some a =>
      obtain ⟨hp, hlive⟩ := (WeakGet_some_iff w e.ActorObjectPtr a).1 hg
      obtain ⟨ds, hc, hn, hm, ha⟩ := ih (w.DestroyActor a)
      have hact : ∀ b, b ∈ (w.DestroyActor a).Actors ↔ (b ∈ w.Actors ∧ b ≠ a) := by
        intro b; simp [UWorld.DestroyActor]
      refine ⟨a :: ds, ?_, ?_, ?_, ?_⟩
      · simp only [] at hc ⊢
        rw [hc]; simp [UWorld.DestroyActor]
      · refine List.nodup_cons.2 ⟨?_, hn⟩
        intro hmem
        have := ((hm a).1 hmem).1
        exact ((hact a).1 this).2 rfl
      · intro b
        rw [List.mem_cons, hm b, hact b]
        constructor
        · rintro (h | ⟨⟨hb, _⟩, e', he', hpe⟩)
          · subst h; exact ⟨hlive, e, List.mem_cons_self _ _, hp⟩
          · exact ⟨hb, e', List.mem_cons_of_mem _ he', hpe⟩
        · rintro ⟨hb, e', he', hpe⟩
          by_cases hba : b = a
          · exact Or.inl hba
          · right
            refine ⟨⟨hb, hba⟩, ?_⟩
            rcases List.mem_cons.1 he' with h | h
            · subst h; rw [hp] at hpe; exact absurd (Option.some.inj hpe).symm hba
            · exact ⟨e', h, hpe⟩
      · intro b
        simp only [] at ha ⊢
        rw [ha b, hact b, List.mem_cons]
        tauto

theorem AddEntriesLoop_requests {T : Type} (H : Host T) (w : UWorld T)
    (es : List (FViewportWidgetEntry T)) :
    (AddEntriesLoop H w es).2.map FViewportWidgetEntry.Request =
      es.map FViewportWidgetEntry.Request := by
  induction es generalizing w with
  | nil => rfl
  | cons e es ih =>
    simp only [AddEntriesLoop]
    cases H.LoadSynchronous e.ActorClassPtr <;>
      simp [ih, FViewportWidgetEntry.Request]

theorem AddEntriesLoop_next {T : Type} (H : Host T) (w : UWorld T)
    (es : List (FViewportWidgetEntry T)) :
    (AddEntriesLoop H w es).1.NextActor = w.NextActor + es.countP H.Loads := by
  induction es generalizing w with
  | nil => rfl
  | cons e es ih =>
    simp only [AddEntriesLoop]
    cases hl : H.LoadSynchronous e.ActorClassPtr with
    | none =>
      have : H.Loads e = false := by simp [Host.Loads, hl]
      simp [ih, List.countP_cons, this]
    | some c =>
      have : H.Loads e = true := by simp [Host.Loads, hl]
      simp [ih, List.countP_cons, this, UWorld.SpawnActor]
      omega

/-- The calls of the add loop: one `SpawnActor` for each entry whose class
loads, and nothing else; the live actors are the old ones and the fresh ones. -/
theorem AddEntriesLoop_calls {T : Type} (H : Host T) (w : UWorld T)
    (es : List (FViewportWidgetEntry T)) :
    ∃ sp : List (FWorldCall T),
      (AddEntriesLoop H w es).1.Calls = w.Calls ++ sp ∧
      (∀ c ∈ sp, c.IsSpawn = true) ∧
      sp.length = es.countP H.Loads ∧
      (∀ b, b ∈ (AddEntriesLoop H w es).1.Actors ↔
        (b ∈ w.Actors ∨ (w.NextActor ≤ b ∧ b < (AddEntriesLoop H w es).1.NextActor))) := by
  induction es generalizing w with
  | nil => exact ⟨[], by simp [AddEntriesLoop]⟩
  | cons e es ih =>
    have hnext := AddEntriesLoop_next H w (e :: es)
    simp only [AddEntriesLoop] at hnext ⊢
    cases hl : H.LoadSynchronous e.ActorClassPtr with
    | none =>
      have hload : H.Loads e = false := by simp [Host.Loads, hl]
      obtain ⟨sp, hc, hs, hlen, ha⟩ := ih w
      exact ⟨sp, hc, hs, by simp [hlen, List.countP_cons, hload], ha⟩
    | some c =>
      have hload : H.Loads e = true := by simp [Host.Loads, hl]
      obtain ⟨sp, hc, hs, hlen, ha⟩ := ih (w.SpawnActor c e.SpawnTransform).2
      have hn2 := AddEntriesLoop_next H (w.SpawnActor c e.SpawnTransform).2 es
      refine ⟨FWorldCall.SpawnActor c e.SpawnTransform w.NextActor :: sp, ?_, ?_, ?_, ?_⟩
      · simp only [] at hc ⊢
        rw [hc]; simp [UWorld.SpawnActor]
      · intro x hx
        rcases List.mem_cons.1 hx with h | h
        · subst h; rfl
        · exact hs x h
      · simp [hlen, List.countP_cons, hload]
      · intro b
        have hA : (w.SpawnActor c e.SpawnTransform).2.Actors = w.Actors ++ [w.NextActor] := rfl
        have hX : (w.SpawnActor c e.SpawnTransform).2.NextActor = w.NextActor + 1 := rfl
        simp only [] at ha ⊢
        rw [ha b, hA, hX, List.mem_append, List.mem_singleton]
        rw [hX] at hn2
        constructor
        · rintro ((h | h) | ⟨h1, h2⟩)
          · exact Or.inl h
          · exact Or.inr ⟨by omega, by omega⟩
          · exact Or.inr ⟨by omega, h2⟩
        · rintro (h | ⟨h1, h2⟩)
          · exact Or.inl (Or.inl h)
          · by_cases hb : b = w.NextActor
            · exact Or.inl (Or.inr hb)
            · exact Or.inr ⟨by omega, h2⟩

theorem CleanEntries_world_none {T : Type} (s : SViewportWidget T) (h : s.World = none) :
    s.CleanEntries = s := by
  unfold SViewportWidget.World at h
  unfold SViewportWidget.CleanEntries
  cases hp : s.PreviewScene with
  | none => rfl
  | some ps =>
    rw [hp] at h
    simp only [] at h ⊢
    rw [h]

theorem CleanEntries_valid {T : Type} (s : SViewportWidget T) (ps : FPreviewScene T)
    (w : UWorld T) (es : List (FViewportWidgetEntry T))
    (hps : s.PreviewScene = some ps) (hw : ps.World = some w) (hes : s.Entries = some es) :
    s.CleanEntries =
      { s with PreviewScene := some { ps with World := some (CleanEntriesLoop w es).1 },
               Entries := some (CleanEntriesLoop w es).2 } := by
  simp [SViewportWidget.CleanEntries, hps, hw, hes]

/-- The world in which `SetEntries` starts to spawn: the world after the clean
loop over the stored entries, or the world itself when nothing is stored. -/
theorem SetEntries_changed {T : Type} (H : Host T) (s : SViewportWidget T)
    (ps : FPreviewScene T) (w : UWorld T) (entries : List (FViewportWidgetEntry T))
    (hps : s.PreviewScene = some ps) (hw : ps.World = some w)
    (hchg : s.EntriesChanged H entries = true) :
    ∃ w1, ((s.Entries = none ∧ w1 = w) ∨
        ∃ old, s.Entries = some old ∧ w1 = (CleanEntriesLoop w old).1) ∧
      s.SetEntries H entries =
        { s with PreviewScene := some { ps with World := some (AddEntriesLoop H w1 entries).1 },
                 Entries := some (AddEntriesLoop H w1 entries).2 } := by
  cases hes : s.Entries with
  | none =>
    refine ⟨w, Or.inl ⟨rfl, rfl⟩, ?_⟩
    simp [SViewportWidget.SetEntries, hchg, SViewportWidget.CleanEntries, hps, hw, hes,
      SViewportWidget.AddEntries]
  | some old =>
    refine ⟨(CleanEntriesLoop w old).1, Or.inr ⟨old, rfl, rfl⟩, ?_⟩
    simp [SViewportWidget.SetEntries, hchg, SViewportWidget.CleanEntries, hps, hw, hes,
      SViewportWidget.AddEntries]

theorem SetEntries_unchanged {T : Type} (H : Host T) (s : SViewportWidget T)
    (entries : List (FViewportWidgetEntry T)) (hchg : s.EntriesChanged H entries = false) :
    s.SetEntries H entries = s := by
  simp [SViewportWidget.SetEntries, hchg]

/-- C1. On a widget with a valid preview world, when the requested list differs
from the stored one or nothing is stored yet, `SetEntries` appends to the calls
of the world first a block of `DestroyActor` calls and then a block of
`SpawnActor` calls, one for each entry of the new list whose class loads; every
live actor of an old entry is in the destroy block, no actor the world had
handed out to an old entry is alive afterwards, and the stored list carries the
classes and transforms of the new list, in order. -/
theorem C1_SetEntries_destroys_all_then_spawns {T : Type} (H : Host T)
    (s : SViewportWidget T) (ps : FPreviewScene T) (w : UWorld T)
    (entries : List (FViewportWidgetEntry T))
    (hps : s.PreviewScene = some ps) (hw : ps.World = some w)
    (hchg : s.EntriesChanged H entries = true) :
    ∃ (w' : UWorld T) (ds sp : List (FWorldCall T)) (stored : List (FViewportWidgetEntry T)),
      (s.SetEntries H entries).World = some w' ∧
      (s.SetEntries H entries).Entries = some stored ∧
      w'.Calls = w.Calls ++ ds ++ sp ∧
      (∀ c ∈ ds, c.IsDestroy = true) ∧
      (∀ c ∈ sp, c.IsSpawn = true) ∧
      sp.length = entries.countP H.Loads ∧
      (∀ old, s.Entries = some old → ∀ e ∈ old, ∀ a, e.ActorObjectPtr = some a →
        w.IsValidActor a = true → FWorldCall.DestroyActor a ∈ ds) ∧
      (∀ old, s.Entries = some old → ∀ e ∈ old, ∀ a, e.ActorObjectPtr = some a →
        a < w.NextActor → w'.IsValidActor a = false) ∧
      stored.map FViewportWidgetEntry.Request = entries.map FViewportWidgetEntry.Request := by
  obtain ⟨w1, hw1, heq⟩ := SetEntries_changed H s ps w entries hps hw hchg
  obtain ⟨sp, hc, hs, hlen, hact⟩ := AddEntriesLoop_calls H w1 entries
  have hnextadd := AddEntriesLoop_next H w1 entries
  rcases hw1 with ⟨hnone, h1⟩ | ⟨old, hold, h1⟩
  · subst h1
    refine ⟨(AddEntriesLoop H w1 entries).1, [], sp, (AddEntriesLoop H w1 entries).2,
      by rw [heq]; rfl, by rw [heq], by simpa using hc, by simp, hs, hlen, ?_, ?_,
      AddEntriesLoop_requests H w1 entries⟩
    · intro old ho; rw [hnone] at ho; exact Option.noConfusion ho
    · intro old ho; rw [hnone] at ho; exact Option.noConfusion ho
  · obtain ⟨ds, hcd, _, hmem, hactd⟩ := CleanEntriesLoop_calls w old
    have hnext1 : w1.NextActor = w.NextActor := by rw [h1]; exact CleanEntriesLoop_next w old
    rw [← h1] at hcd hactd
    refine ⟨(AddEntriesLoop H w1 entries).1, ds.map FWorldCall.DestroyActor, sp,
      (AddEntriesLoop H w1 entries).2, by rw [heq]; rfl, by rw [heq], by rw [hc, hcd], ?_, hs,
      hlen, ?_, ?_, AddEntriesLoop_requests H w1 entries⟩
    · intro c hcm
      obtain ⟨a, _, rfl⟩ := List.mem_map.1 hcm
      rfl
    · intro old' ho e he a hp hlive
      rw [hold] at ho
      cases ho
      have hl : a ∈ w.Actors := by simpa [UWorld.IsValidActor] using hlive
      exact List.mem_map.2 ⟨a, (hmem a).2 ⟨hl, e, he, hp⟩, rfl⟩
    · intro old' ho e he a hp hlt
      rw [hold] at ho
      cases ho
      have hnot1 : a ∉ w1.Actors := by
        intro hin
        obtain ⟨hl, hnd⟩ := (hactd a).1 hin
        exact hnd ((hmem a).2 ⟨hl, e, he, hp⟩)
      have hnot : a ∉ (AddEntriesLoop H w1 entries).1.Actors := by
        intro hin
        rcases (hact a).1 hin with h | ⟨h, _⟩
        · exact hnot1 h
        · omega
      simpa [UWorld.IsValidActor] using hnot

/-- C1 at `sampleWidget`, whose two entries hold the live actors 0 and 1, and
the new list `sampleEntries`. -/
theorem C1_SetEntries_destroys_all_then_spawns_witness :
    sampleWidget.PreviewScene = some sampleScene ∧ sampleScene.World = some sampleWorld ∧
    sampleWidget.EntriesChanged sampleHost sampleEntries = true ∧
    ∃ (w' : UWorld Nat) (ds sp : List (FWorldCall Nat))
      (stored : List (FViewportWidgetEntry Nat)),
      (sampleWidget.SetEntries sampleHost sampleEntries).World = some w' ∧
      (sampleWidget.SetEntries sampleHost sampleEntries).Entries = some stored ∧
      w'.Calls = sampleWorld.Calls ++ ds ++ sp ∧
      (∀ c ∈ ds, c.IsDestroy = true) ∧
      (∀ c ∈ sp, c.IsSpawn = true) ∧
      sp.length = sampleEntries.countP sampleHost.Loads ∧
      (∀ old, sampleWidget.Entries = some old → ∀ e ∈ old, ∀ a, e.ActorObjectPtr = some a →
        sampleWorld.IsValidActor a = true → FWorldCall.DestroyActor a ∈ ds) ∧
      (∀ old, sampleWidget.Entries = some old → ∀ e ∈ old, ∀ a, e.ActorObjectPtr = some a →
        a < sampleWorld.NextActor → w'.IsValidActor a = false) ∧
      stored.map FViewportWidgetEntry.Request =
        sampleEntries.map FViewportWidgetEntry.Request :=
  ⟨rfl, rfl, by decide,
    C1_SetEntries_destroys_all_then_spawns sampleHost sampleWidget sampleScene sampleWorld
      sampleEntries rfl rfl (by decide)⟩

/-! ## C2: spawned actors and requested entries -/

/-- C3. `SetViewTransform(t)` leaves the widget as it is when a transform is
stored and `FTransform::Equals` holds between it and `t`; in every other state
the stored transform becomes `t`, the view location and view rotation of the
client become the location and the rotator of `t`, and nothing else changes.
Calling it twice with the same `t` gives the state of calling it once. -/
theorem C3_SetViewTransform_compares_by_value {T : Type} (H : Host T)
    (s : SViewportWidget T) (t : T) :
    (∀ stored, s.ViewTransform = some stored → H.Equals stored t = true →
      s.SetViewTransform H t = s) ∧
    ((s.ViewTransform = none ∨
        ∃ stored, s.ViewTransform = some stored ∧ H.Equals stored t = false) →
      (s.SetViewTransform H t).ViewTransform = some t ∧
      (s.SetViewTransform H t).Client.ViewLocation = H.GetLocation t ∧
      (s.SetViewTransform H t).Client.ViewRotation = H.Rotator t ∧
      (s.SetViewTransform H t).Client.BackgroundColor = s.Client.BackgroundColor ∧
      (s.SetViewTransform H t).Client.ViewFOV = s.Client.ViewFOV ∧
      (s.SetViewTransform H t).PreviewScene = s.PreviewScene ∧
      (s.SetViewTransform H t).Entries = s.Entries) ∧
    (s.SetViewTransform H t).SetViewTransform H t = s.SetViewTransform H t := by
  refine ⟨?_, ?_, ?_⟩
  · intro stored hs he
    simp [SViewportWidget.SetViewTransform, hs, he]
  · rintro (hs | ⟨stored, hs, he⟩)
    · simp [SViewportWidget.SetViewTransform, hs, FCustomUMGViewportClient.SetViewLocation,
        FCustomUMGViewportClient.SetViewRotation]
    · simp [SViewportWidget.SetViewTransform, hs, he, FCustomUMGViewportClient.SetViewLocation,
        FCustomUMGViewportClient.SetViewRotation]
  · cases hs : s.ViewTransform with
    | none =>
      cases he : H.Equals t t <;>
        simp [SViewportWidget.SetViewTransform, hs, he, FCustomUMGViewportClient.SetViewLocation,
          FCustomUMGViewportClient.SetViewRotation]
    | some stored =>
      cases he : H.Equals stored t
      · cases he2 : H.Equals t t <;>
          simp [SViewportWidget.SetViewTransform, hs, he, he2,
            FCustomUMGViewportClient.SetViewLocation, FCustomUMGViewportClient.SetViewRotation]
      · simp [SViewportWidget.SetViewTransform, hs, he]

/-- C3 at `sampleWidget`, which stores the transform 7: setting 7 changes
nothing, setting 8 stores 8 and moves the client. -/
theorem C3_SetViewTransform_compares_by_value_witness :
    sampleWidget.SetViewTransform sampleHost 7 = sampleWidget ∧
    (sampleWidget.SetViewTransform sampleHost 8).ViewTransform = some 8 ∧
    (sampleWidget.SetViewTransform sampleHost 8).Client.ViewLocation =
      sampleHost.GetLocation 8 ∧
    (sampleWidget.SetViewTransform sampleHost 8).Client.ViewRotation = sampleHost.Rotator 8 :=
  ⟨(C3_SetViewTransform_compares_by_value sampleHost sampleWidget 7).1 7 rfl rfl,
    ((C3_SetViewTransform_compares_by_value sampleHost sampleWidget 8).2.1
      (Or.inr ⟨7, rfl, rfl⟩)).1,
    ((C3_SetViewTransform_compares_by_value sampleHost sampleWidget 8).2.1
      (Or.inr ⟨7, rfl, rfl⟩)).2.1,
    ((C3_SetViewTransform_compares_by_value sampleHost sampleWidget 8).2.1
      (Or.inr ⟨7, rfl, rfl⟩)).2.2.1⟩

/-! ## C5: setters and getters of `UViewportWidget` -/

/-- C5. `SetViewTransform(t)` followed by `GetViewTransform()` returns `t` and
`SetEntries(e)` followed by `GetEntries()` returns `e`, with or without an
underlying viewport; `SetViewTransform` keeps the stored entries and
`SetEntries` keeps the stored transform. -/
theorem C5_setters_getters_round_trip {T : Type} (H : Host T) (u : UViewportWidget T)
    (t : T) (e : List (FViewportWidgetEntry T)) :
    (u.SetViewTransform H t).GetViewTransform = t ∧
    (u.SetEntries H e).GetEntries = e ∧
    (u.SetViewTransform H t).GetEntries = u.GetEntries ∧
    (u.SetEntries H e).GetViewTransform = u.GetViewTransform := by
  unfold UViewportWidget.SetViewTransform UViewportWidget.SetEntries
    UViewportWidget.GetViewTransform UViewportWidget.GetEntries
  cases u.MyViewport <;> simp

/-! ## C6: `GetSpawnedActor` -/

/-- C6. `SViewportWidget::GetSpawnedActor` is total: it returns the null
reference when no list is stored or the index is negative or not below the
number of stored entries, and the weak pointer of the entry at the index
otherwise.  `UViewportWidget::GetSpawnedActor` returns null when the viewport is
null or the weak pointer is not valid, and the actor of the weak pointer
otherwise. -/
theorem C6_GetSpawnedActor_is_guarded {T : Type} (s : SViewportWidget T)
    (u : UViewportWidget T) (entryIndex : Int) :
    (s.Entries = none → s.GetSpawnedActor entryIndex = none) ∧
    (∀ es, s.Entries = some es → (entryIndex < 0 ∨ (es.length : Int) ≤ entryIndex) →
      s.GetSpawnedActor entryIndex = none) ∧
    (∀ es, s.Entries = some es → 0 ≤ entryIndex → entryIndex < (es.length : Int) →
      ∃ e, es[entryIndex.toNat]? = some e ∧ s.GetSpawnedActor entryIndex = e.ActorObjectPtr) ∧
    (u.MyViewport = none → u.GetSpawnedActor entryIndex = none) ∧
    (∀ v, u.MyViewport = some v →
      (WeakIsValid v.World (v.GetSpawnedActor entryIndex) = false →
        u.GetSpawnedActor entryIndex = none) ∧
      (WeakIsValid v.World (v.GetSpawnedActor entryIndex) = true →
        u.GetSpawnedActor entryIndex = v.GetSpawnedActor entryIndex ∧
        ∃ a, u.GetSpawnedActor entryIndex = some a)) := by
  refine ⟨?_, ?_, ?_, ?_, ?_⟩
  · intro h
    simp [SViewportWidget.GetSpawnedActor, h]
  · intro es h hr
    have : IsValidIndex es entryIndex = false := by
      simp only [IsValidIndex, Bool.and_eq_false_iff, decide_eq_false_iff_not]
      omega
    simp [SViewportWidget.GetSpawnedActor, h, this]
  · intro es h h0 h1
    have hv : IsValidIndex es entryIndex = true := by
      simp [IsValidIndex, h0, h1]
    have hlt : entryIndex.toNat < es.length := by omega
    refine ⟨es[entryIndex.toNat], List.getElem?_eq_getElem hlt, ?_⟩
    simp [SViewportWidget.GetSpawnedActor, h, hv, List.getElem?_eq_getElem hlt]
  · intro h
    simp [UViewportWidget.GetSpawnedActor, h]
  · intro v h
    refine ⟨fun hv => by simp [UViewportWidget.GetSpawnedActor, h, hv], fun hv => ?_⟩
    have hu : u.GetSpawnedActor entryIndex = WeakGet v.World (v.GetSpawnedActor entryIndex) := by
      simp [UViewportWidget.GetSpawnedActor, h, hv]
    unfold WeakIsValid at hv
    obtain ⟨a, ha⟩ := Option.isSome_iff_exists.1 hv
    have hp : v.GetSpawnedActor entryIndex = some a := by
      cases hw : v.World with
      | none => rw [hw] at ha; simp [WeakGet] at ha
      | some w =>
        rw [hw] at ha
        exact ((WeakGet_some_iff w _ a).1 ha).1
    rw [hu, ha, hp]
    exact ⟨rfl, a, rfl⟩

/-- C6 at `sampleWidget`: index 1 gives the actor of the second entry, the
indices -1 and 2 give the null reference. -/
theorem C6_GetSpawnedActor_is_guarded_witness :
    sampleWidget.GetSpawnedActor (-1) = none ∧
    sampleWidget.GetSpawnedActor 2 = none ∧
    (∃ e, [(⟨5, 10, some 0⟩ : FViewportWidgetEntry Nat), ⟨6, 11, some 1⟩][(1 : Int).toNat]? =
        some e ∧ sampleWidget.GetSpawnedActor 1 = e.ActorObjectPtr) ∧
    sampleUWidget.GetSpawnedActor 1 = sampleWidget.GetSpawnedActor 1 :=
  ⟨(C6_GetSpawnedActor_is_guarded sampleWidget sampleUWidget (-1)).2.1 _ rfl
      (Or.inl (by decide)),
    (C6_GetSpawnedActor_is_guarded sampleWidget sampleUWidget 2).2.1 _ rfl
      (Or.inr (by decide)),
    (C6_GetSpawnedActor_is_guarded sampleWidget sampleUWidget 1).2.2.1 _ rfl
      (by decide) (by decide),
    (((C6_GetSpawnedActor_is_guarded sampleWidget sampleUWidget 1).2.2.2.2 _ rfl).2
      (by decide)).1⟩

/-! ## C7: `CleanEntries` -/

/-- C7. With a null preview scene or a null world `CleanEntries` leaves the
widget as it is.  With a valid world it makes `DestroyActor` calls only: exactly
one for every live actor an entry refers to and none for any other actor; those
actors are dead afterwards; every entry has its weak pointer reset and keeps its
class and its transform, and the number of entries is the same. -/
theorem C7_CleanEntries_guards_on_world {T : Type} (s : SViewportWidget T) :
    (s.PreviewScene = none → s.CleanEntries = s) ∧
    (∀ ps, s.PreviewScene = some ps → ps.World = none → s.CleanEntries = s) ∧
    (∀ ps w es, s.PreviewScene = some ps → ps.World = some w → s.Entries = some es →
      ∃ (w' : UWorld T) (ds : List Nat) (stored : List (FViewportWidgetEntry T)),
        s.CleanEntries.World = some w' ∧
        s.CleanEntries.Entries = some stored ∧
        w'.Calls = w.Calls ++ ds.map FWorldCall.DestroyActor ∧
        (∀ e ∈ es, ∀ a, e.ActorObjectPtr = some a → w.IsValidActor a = true →
          ds.count a = 1 ∧ w'.IsValidActor a = false) ∧
        (∀ a ∈ ds, w.IsValidActor a = true ∧ ∃ e ∈ es, e.ActorObjectPtr = some a) ∧
        (∀ e ∈ stored, e.ActorObjectPtr = none) ∧
        stored.length = es.length ∧
        stored.map FViewportWidgetEntry.Request = es.map FViewportWidgetEntry.Request) := by
  refine ⟨?_, ?_, ?_⟩
  · intro h
    exact CleanEntries_world_none s (by simp [SViewportWidget.World, h])
  · intro ps h hw
    exact CleanEntries_world_none s (by simp [SViewportWidget.World, h, hw])
  · intro ps w es hps hw hes
    obtain ⟨ds, hc, hnd, hmem, hact⟩ := CleanEntriesLoop_calls w es
    refine ⟨(CleanEntriesLoop w es).1, ds, (CleanEntriesLoop w es).2, ?_, ?_, hc, ?_, ?_, ?_, ?_,
      ?_⟩
    · rw [CleanEntries_valid s ps w es hps hw hes]; rfl
    · rw [CleanEntries_valid s ps w es hps hw hes]
    · intro e he a hp hlive
      have hl : a ∈ w.Actors := by simpa [UWorld.IsValidActor] using hlive
      have hin : a ∈ ds := (hmem a).2 ⟨hl, e, he, hp⟩
      refine ⟨List.count_eq_one_of_mem hnd hin, ?_⟩
      have : a ∉ (CleanEntriesLoop w es).1.Actors := fun h => ((hact a).1 h).2 hin
      simpa [UWorld.IsValidActor] using this
    · intro a ha
      obtain ⟨hl, hex⟩ := (hmem a).1 ha
      exact ⟨by simpa [UWorld.IsValidActor] using hl, hex⟩
    · rw [CleanEntriesLoop_entries]
      intro e he
      obtain ⟨x, _, rfl⟩ := List.mem_map.1 he
      rfl
    · rw [CleanEntriesLoop_entries]; simp
    · rw [CleanEntriesLoop_entries, List.map_map]
      rfl

/-- C7 at `sampleWidget`, where the live actors 0 and 1 are destroyed, and at
`worldlessWidget`, which stays as it is. -/
theorem C7_CleanEntries_guards_on_world_witness :
    worldlessWidget.CleanEntries = worldlessWidget ∧
    ∃ (w' : UWorld Nat) (ds : List Nat) (stored : List (FViewportWidgetEntry Nat)),
      sampleWidget.CleanEntries.World = some w' ∧
      sampleWidget.CleanEntries.Entries = some stored ∧
      w'.Calls = sampleWorld.Calls ++ ds.map FWorldCall.DestroyActor ∧
      (∀ e ∈ [(⟨5, 10, some 0⟩ : FViewportWidgetEntry Nat), ⟨6, 11, some 1⟩], ∀ a,
        e.ActorObjectPtr = some a → sampleWorld.IsValidActor a = true →
          ds.count a = 1 ∧ w'.IsValidActor a = false) ∧
      (∀ a ∈ ds, sampleWorld.IsValidActor a = true ∧
        ∃ e ∈ [(⟨5, 10, some 0⟩ : FViewportWidgetEntry Nat), ⟨6, 11, some 1⟩],
          e.ActorObjectPtr = some a) ∧
      (∀ e ∈ stored, e.ActorObjectPtr = none) ∧
      stored.length = 2 ∧
      stored.map FViewportWidgetEntry.Request =
        [(⟨5, 10, some 0⟩ : FViewportWidgetEntry Nat), ⟨6, 11, some 1⟩].map
          FViewportWidgetEntry.Request :=
  ⟨(C7_CleanEntries_guards_on_world worldlessWidget).2.1 _ rfl rfl,
    (C7_CleanEntries_guards_on_world sampleWidget).2.2 sampleScene sampleWorld _ rfl rfl rfl⟩

/-! ## C4: `UViewportWidget::SynchronizeProperties` -/

theorem CleanEntries_frame {T : Type} (s : SViewportWidget T) :
    s.CleanEntries.Client = s.Client ∧
    s.CleanEntries.ViewTransform = s.ViewTransform ∧
    (∀ ps, s.PreviewScene = some ps →
      ∃ w', s.CleanEntries.PreviewScene = some { ps with World := w' }) := by
  rcases s with ⟨c, ps, vt, es⟩
  cases ps with
  | none => exact ⟨rfl, rfl, fun ps h => Option.noConfusion h⟩
  | some p =>
    rcases p with ⟨w, sky, light, dir, cap⟩
    cases w with
    | none => exact ⟨rfl, rfl, fun ps h => ⟨none, by cases h; rfl⟩⟩
    | some w =>
      cases es with
      | none => exact ⟨rfl, rfl, fun ps h => ⟨some w, by cases h; rfl⟩⟩
      | some es => exact ⟨rfl, rfl, fun ps h => ⟨_, by cases h; rfl⟩⟩

theorem AddEntries_frame {T : Type} (H : Host T) (s : SViewportWidget T) :
    (s.AddEntries H).Client = s.Client ∧
    (s.AddEntries H).ViewTransform = s.ViewTransform ∧
    (∀ ps, s.PreviewScene = some ps →
      ∃ w', (s.AddEntries H).PreviewScene = some { ps with World := w' }) := by
  rcases s with ⟨c, ps, vt, es⟩
  cases ps with
  | none => exact ⟨rfl, rfl, fun ps h => Option.noConfusion h⟩
  | some p =>
    rcases p with ⟨w, sky, light, dir, cap⟩
    cases w with
    | none => exact ⟨rfl, rfl, fun ps h => ⟨none, by cases h; rfl⟩⟩
    | some w =>
      cases es with
      | none => exact ⟨rfl, rfl, fun ps h => ⟨some w, by cases h; rfl⟩⟩
      | some es => exact ⟨rfl, rfl, fun ps h => ⟨_, by cases h; rfl⟩⟩

/-- What `SetEntries` leaves alone: the client, the stored transform, and every
field of the preview scene other than its world. -/
theorem SetEntries_frame {T : Type} (H : Host T) (s : SViewportWidget T)
    (entries : List (FViewportWidgetEntry T)) :
    (s.SetEntries H entries).Client = s.Client ∧
    (s.SetEntries H entries).ViewTransform = s.ViewTransform ∧
    (∀ ps, s.PreviewScene = some ps →
      ∃ w', (s.SetEntries H entries).PreviewScene = some { ps with World := w' }) := by
  cases hchg : s.EntriesChanged H entries with
  | false =>
    rw [SetEntries_unchanged H s entries hchg]
    exact ⟨rfl, rfl, fun ps h => ⟨ps.World, by rw [h]⟩⟩
  | true =>
    have heq : s.SetEntries H entries =
        SViewportWidget.AddEntries H { s.CleanEntries with Entries := some entries } := by
      simp [SViewportWidget.SetEntries, hchg]
    rw [heq]
    obtain ⟨hc, hv, hp⟩ := CleanEntries_frame s
    obtain ⟨hc2, hv2, hp2⟩ :=
      AddEntries_frame H { s.CleanEntries with Entries := some entries }
    refine ⟨hc2.trans hc, hv2.trans hv, ?_⟩
    intro ps h
    obtain ⟨w1, h1⟩ := hp ps h
    obtain ⟨w2, h2⟩ := hp2 _ h1
    exact ⟨w2, h2⟩

/-- The list `SetEntries` leaves stored: either it carries the classes and
transforms of the requested list, or it is the list stored before and
`IsNotEqual` found no difference with the requested list. -/
theorem SetEntries_stored {T : Type} (H : Host T) (s : SViewportWidget T)
    (entries : List (FViewportWidgetEntry T)) :
    ∃ stored, (s.SetEntries H entries).Entries = some stored ∧
      (stored.map FViewportWidgetEntry.Request = entries.map FViewportWidgetEntry.Request ∨
        (s.Entries = some stored ∧ IsNotEqual H stored entries = false)) := by
  cases hchg : s.EntriesChanged H entries with
  | false =>
    rw [SetEntries_unchanged H s entries hchg]
    unfold SViewportWidget.EntriesChanged at hchg
    cases he : s.Entries with
    | none => rw [he] at hchg; exact Bool.noConfusion hchg
    | some es =>
      rw [he] at hchg
      exact ⟨es, rfl, Or.inr ⟨rfl, hchg⟩⟩
  | true =>
    have heq : s.SetEntries H entries =
        SViewportWidget.AddEntries H { s.CleanEntries with Entries := some entries } := by
      simp [SViewportWidget.SetEntries, hchg]
    rw [heq]
    unfold SViewportWidget.AddEntries
    cases hp : s.CleanEntries.PreviewScene with
    | none => exact ⟨entries, by simp [hp], Or.inl rfl⟩
    | some ps =>
      cases hw : ps.World with
      | none => exact ⟨entries, by simp [hp, hw], Or.inl rfl⟩
      | some w =>
        exact ⟨(AddEntriesLoop H w entries).2, by simp [hp, hw],
          Or.inl (AddEntriesLoop_requests H w entries)⟩

/-- C4, as stated, fails: `sampleUWidget` has preview lighting switched off, a
sky brightness of 1 and a light brightness of 3; after `SynchronizeProperties`
the scene of its viewport holds the brightness 0 for both. -/
theorem C4_counterexample_lighting_disabled :
    sampleUWidget.SkyBrightness = 1 ∧ sampleUWidget.LightBrightness = 3 ∧
    ((sampleUWidget.SynchronizeProperties sampleHost).bind UViewportWidget.Scene).map
      FPreviewScene.SkyBrightness = some 0 ∧
    ((sampleUWidget.SynchronizeProperties sampleHost).bind UViewportWidget.Scene).map
      FPreviewScene.LightBrightness = some 0 := by
  decide

theorem SetViewTransform_stored {T : Type} (H : Host T) (s : SViewportWidget T) (t : T) :
    (s.SetViewTransform H t).PreviewScene = s.PreviewScene ∧
    ∃ t', (s.SetViewTransform H t).ViewTransform = some t' ∧ (t' = t ∨ H.Equals t' t = true) := by
  cases hs : s.ViewTransform with
  | none => simp [SViewportWidget.SetViewTransform, hs]
  | some stored =>
    cases he : H.Equals stored t with
    | false => simp [SViewportWidget.SetViewTransform, hs, he]
    | true => simp [SViewportWidget.SetViewTransform, hs, he]

/-- C4, amended. On a widget whose viewport and preview scene are valid,
`SynchronizeProperties` succeeds, keeps the properties of the widget and leaves
the viewport with: a stored transform that is the widget's or one that
`FTransform::Equals` does not tell from it; a stored list that carries the
classes and transforms of the widget's entries or one that `IsNotEqual` does
not tell from them; the background color of the widget, reinterpreted as
linear; the FOV of the widget.  With preview lighting enabled the scene holds
the sky brightness, light brightness and light direction of the widget; with
preview lighting disabled the capture is updated, the scene holds the sky
brightness 0 and the light brightness 0, and its light direction is kept. -/
theorem C4_SynchronizeProperties_syncs {T : Type} (H : Host T) (u : UViewportWidget T)
    (v : SViewportWidget T) (ps : FPreviewScene T)
    (hv : u.MyViewport = some v) (hps : v.PreviewScene = some ps) :
    ∃ (v' : SViewportWidget T) (ps' : FPreviewScene T) (t : T)
      (stored : List (FViewportWidgetEntry T)),
      u.SynchronizeProperties H = some { u with MyViewport := some v' } ∧
      v'.PreviewScene = some ps' ∧
      v'.ViewTransform = some t ∧
      (t = u.ViewTransform ∨ H.Equals t u.ViewTransform = true) ∧
      v'.Entries = some stored ∧
      (stored.map FViewportWidgetEntry.Request = u.Entries.map FViewportWidgetEntry.Request ∨
        IsNotEqual H stored u.Entries = false) ∧
      v'.Client.BackgroundColor = H.ReinterpretAsLinear u.BackgroundColor ∧
      v'.Client.ViewFOV = u.FOV ∧
      (u.EnablePreviewLighting = true →
        ps'.SkyBrightness = u.SkyBrightness ∧ ps'.LightBrightness = u.LightBrightness ∧
        ps'.LightDirection = u.LightDirection ∧ ps'.CaptureUpdates = ps.CaptureUpdates) ∧
      (u.EnablePreviewLighting = false →
        ps'.SkyBrightness = 0 ∧ ps'.LightBrightness = 0 ∧
        ps'.LightDirection = ps.LightDirection ∧
        ps'.CaptureUpdates = ps.CaptureUpdates + 1) := by
  obtain ⟨hp1, t, ht, htv⟩ := SetViewTransform_stored H v u.ViewTransform
  obtain ⟨hc2, hv2, hp2⟩ := SetEntries_frame H (v.SetViewTransform H u.ViewTransform) u.Entries
  obtain ⟨stored, hst, hsv⟩ :=
    SetEntries_stored H (v.SetViewTransform H u.ViewTransform) u.Entries
  obtain ⟨w', hw'⟩ := hp2 ps (hp1.trans hps)
  rw [ht] at hv2
  have hsv' : stored.map FViewportWidgetEntry.Request =
      u.Entries.map FViewportWidgetEntry.Request ∨ IsNotEqual H stored u.Entries = false :=
    hsv.imp id (fun h => h.2)
  unfold UViewportWidget.SynchronizeProperties
  rw [hv]
  simp only []
  generalize (v.SetViewTransform H u.ViewTransform).SetEntries H u.Entries = v2 at hc2 hv2 hst hw'
  rcases v2 with ⟨c2, p2, vt2, es2⟩
  simp only [] at hv2 hst hw'
  subst hv2 hst hw'
  cases hl : u.EnablePreviewLighting with
  | true =>
    refine ⟨⟨(c2.SetBackgroundColor (H.ReinterpretAsLinear u.BackgroundColor)).SetViewFOV u.FOV,
        some { ps with World := w', SkyBrightness := u.SkyBrightness,
                       LightBrightness := u.LightBrightness,
                       LightDirection := u.LightDirection },
        some t, some stored⟩, _, t, stored, ?_, rfl, rfl, htv, rfl, hsv', rfl, rfl,
      fun _ => ⟨rfl, rfl, rfl, rfl⟩, fun h => Bool.noConfusion h⟩
    simp [SViewportWidget.SetViewportSkyBrightness,
      SViewportWidget.SetViewportLightBrightness, SViewportWidget.SetViewportLightDirection,
      SViewportWidget.SetViewportFOV, SViewportWidget.SetViewportBackgroudColor, hl]
  | false =>
    refine ⟨⟨(c2.SetBackgroundColor (H.ReinterpretAsLinear u.BackgroundColor)).SetViewFOV u.FOV,
        some { ps with World := w', SkyBrightness := 0, LightBrightness := 0,
                       CaptureUpdates := ps.CaptureUpdates + 1 },
        some t, some stored⟩, _, t, stored, ?_, rfl, rfl, htv, rfl, hsv', rfl, rfl,
      fun h => Bool.noConfusion h, fun _ => ⟨rfl, rfl, rfl, rfl⟩⟩
    simp [SViewportWidget.SetViewportSkyBrightness,
      SViewportWidget.SetViewportLightBrightness, SViewportWidget.UpdateCapture,
      SViewportWidget.SetViewportFOV, SViewportWidget.SetViewportBackgroudColor, hl]

/-- C4, amended, at `litUWidget`, whose viewport is `sampleWidget`. -/
theorem C4_SynchronizeProperties_syncs_witness :
    litUWidget.MyViewport = some sampleWidget ∧ sampleWidget.PreviewScene = some sampleScene ∧
    ∃ (v' : SViewportWidget Nat) (ps' : FPreviewScene Nat) (t : Nat)
      (stored : List (FViewportWidgetEntry Nat)),
      litUWidget.SynchronizeProperties sampleHost =
        some { litUWidget with MyViewport := some v' } ∧
      v'.PreviewScene = some ps' ∧
      v'.ViewTransform = some t ∧
      (t = litUWidget.ViewTransform ∨ sampleHost.Equals t litUWidget.ViewTransform = true) ∧
      v'.Entries = some stored ∧
      (stored.map FViewportWidgetEntry.Request =
          litUWidget.Entries.map FViewportWidgetEntry.Request ∨
        IsNotEqual sampleHost stored litUWidget.Entries = false) ∧
      v'.Client.BackgroundColor = sampleHost.ReinterpretAsLinear litUWidget.BackgroundColor ∧
      v'.Client.ViewFOV = litUWidget.FOV ∧
      (litUWidget.EnablePreviewLighting = true →
        ps'.SkyBrightness = litUWidget.SkyBrightness ∧
        ps'.LightBrightness = litUWidget.LightBrightness ∧
        ps'.LightDirection = litUWidget.LightDirection ∧
        ps'.CaptureUpdates = sampleScene.CaptureUpdates) ∧
      (litUWidget.EnablePreviewLighting = false →
        ps'.SkyBrightness = 0 ∧ ps'.LightBrightness = 0 ∧
        ps'.LightDirection = sampleScene.LightDirection ∧
        ps'.CaptureUpdates = sampleScene.CaptureUpdates + 1) :=
  ⟨rfl, rfl, C4_SynchronizeProperties_syncs sampleHost litUWidget sampleWidget sampleScene rfl rfl⟩

/-! ## C8: the clip planes of the perspective projection matrix -/

/-- C8, as stated, fails: `sampleClient` is a perspective client with a far
plane of 1000; with a near clip distance of 10 the projection matrix gets 10
both as its minimum Z and as its maximum Z. -/
theorem C8_counterexample_far_plane_not_in_matrix :
    sampleClient.ViewportType = ECustomViewportType.CVT_Perspective ∧
    sampleClient.FarPlane = 1000 ∧
    (CalcSceneView sampleConstants 10 sampleClient ⟨800, 600⟩).ProjectionMatrix.bind
      FProjectionMatrix.PerspectiveMinZ = some 10 ∧
    (CalcSceneView sampleConstants 10 sampleClient ⟨800, 600⟩).ProjectionMatrix.bind
      FProjectionMatrix.PerspectiveMaxZ = some 10 ∧
    (CalcSceneView sampleConstants 10 sampleClient ⟨800, 600⟩).ProjectionMatrix.bind
      FProjectionMatrix.PerspectiveMaxZ ≠ some sampleClient.FarPlane := by
  decide

/-- C8, amended. For a perspective viewport `CalcSceneView` builds the
projection matrix from the clamped viewport size, the field of view and the
near clip distance alone: the near clip distance is both the minimum Z and the
maximum Z of the matrix.  `FarPlane` is not an argument of the matrix, which is
the same for every value of `FarPlane`; it is handed on as
`OverrideFarClippingPlaneDistance`. -/
theorem C8_perspective_matrix_uses_near_clip_only (K : FEngineConstants) (NearClip : ℚ)
    (c : FCustomViewportClient) (RawSize : FIntPoint)
    (hp : c.ViewportType = ECustomViewportType.CVT_Perspective) :
    (CalcSceneView K NearClip c RawSize).ProjectionMatrix =
      some (PerspectiveProjection K NearClip c.ViewFOV
        EAspectRatioAxisConstraint.AspectRatio_MajorAxisFOV (ClampViewportSize RawSize)) ∧
    (CalcSceneView K NearClip c RawSize).ProjectionMatrix.bind
      FProjectionMatrix.PerspectiveMinZ = some NearClip ∧
    (CalcSceneView K NearClip c RawSize).ProjectionMatrix.bind
      FProjectionMatrix.PerspectiveMaxZ = some NearClip ∧
    (CalcSceneView K NearClip c RawSize).OverrideFarClippingPlaneDistance = c.FarPlane ∧
    (∀ f : ℚ, (CalcSceneView K NearClip { c with FarPlane := f } RawSize).ProjectionMatrix =
      (CalcSceneView K NearClip c RawSize).ProjectionMatrix) := by
  refine ⟨?_, ?_, ?_, rfl, ?_⟩
  · simp [CalcSceneView, hp]
  · simp [CalcSceneView, hp, PerspectiveProjection, FProjectionMatrix.PerspectiveMinZ]
  · simp [CalcSceneView, hp, PerspectiveProjection, FProjectionMatrix.PerspectiveMaxZ]
  · intro f
    simp [CalcSceneView, hp]

/-- C8, amended, at `sampleClient` with a near clip distance of 10. -/
theorem C8_perspective_matrix_uses_near_clip_only_witness :
    sampleClient.ViewportType = ECustomViewportType.CVT_Perspective ∧
    (CalcSceneView sampleConstants 10 sampleClient ⟨800, 600⟩).ProjectionMatrix.bind
      FProjectionMatrix.PerspectiveMaxZ = some 10 ∧
    (CalcSceneView sampleConstants 10 sampleClient ⟨800, 600⟩).OverrideFarClippingPlaneDistance =
      sampleClient.FarPlane :=
  ⟨rfl,
    (C8_perspective_matrix_uses_near_clip_only sampleConstants 10 sampleClient ⟨800, 600⟩
      rfl).2.2.1,
    (C8_perspective_matrix_uses_near_clip_only sampleConstants 10 sampleClient ⟨800, 600⟩
      rfl).2.2.2.1⟩

/-! ## C9: preview screen percentage -/

theorem Clamp_bounds (X Min Max : ℚ) (h : Min ≤ Max) :
    Min ≤ Clamp X Min Max ∧ Clamp X Min Max ≤ Max := by
  unfold Clamp
  split_ifs with h1 h2
  · exact ⟨le_refl _, h⟩
  · exact ⟨not_lt.1 h1, le_of_lt h2⟩
  · exact ⟨h, le_refl _⟩

theorem Clamp_of_mem (X Min Max : ℚ) (h1 : Min ≤ X) (h2 : X ≤ Max) : Clamp X Min Max = X := by
  unfold Clamp
  split_ifs with h3 h4
  · exact absurd h1 (not_le.2 h3)
  · rfl
  · exact le_antisymm (not_lt.1 h4) h2

theorem RoundToInt_intCast (z : Int) : RoundToInt (z : ℚ) = z := by
  unfold RoundToInt
  rw [Int.floor_eq_iff]
  constructor <;> norm_num

theorem RoundToInt_bounds (x : ℚ) (a b : Int) (h1 : (a : ℚ) ≤ x) (h2 : x ≤ (b : ℚ)) :
    a ≤ RoundToInt x ∧ RoundToInt x ≤ b := by
  unfold RoundToInt
  constructor
  · rw [Int.le_floor]; linarith
  · have : Int.floor (x + 1 / 2) < b + 1 := by
      rw [Int.floor_lt]; push_cast; linarith
    omega

theorem GetPreviewScreenPercentage_unset (c : FCustomViewportClient)
    (h : c.PreviewResolutionFraction = none) : c.GetPreviewScreenPercentage = 100 := by
  unfold FCustomViewportClient.GetPreviewScreenPercentage
  rw [h]
  have : Clamp 1 (1 / 10) 4 * 100 = ((100 : Int) : ℚ) := by
    rw [Clamp_of_mem 1 (1 / 10) 4 (by norm_num) (by norm_num)]; norm_num
  simp only [this]
  exact RoundToInt_intCast 100

/-- C9. After `SetPreviewScreenPercentage(p)` the call
`GetPreviewScreenPercentage()` returns `p` when `10 ≤ p ≤ 400` and 100
otherwise; the override is cleared exactly when `p` is out of range or is 100;
in every state `GetPreviewScreenPercentage` returns a value between 10 and 400
inclusive. -/
theorem C9_preview_screen_percentage_round_trip (c : FCustomViewportClient) (p : Int) :
    ((10 ≤ p ∧ p ≤ 400) → (c.SetPreviewScreenPercentage p).GetPreviewScreenPercentage = p) ∧
    (¬ (10 ≤ p ∧ p ≤ 400) → (c.SetPreviewScreenPercentage p).GetPreviewScreenPercentage = 100) ∧
    ((c.SetPreviewScreenPercentage p).PreviewResolutionFraction = none ↔
      (p < 10 ∨ 400 < p ∨ p = 100)) ∧
    (10 ≤ c.GetPreviewScreenPercentage ∧ c.GetPreviewScreenPercentage ≤ 400) := by
  have hauto : RoundToInt (Clamp 1 (1 / 10) 4 * 100) = 100 := by
    have : Clamp 1 (1 / 10) 4 * 100 = ((100 : Int) : ℚ) := by
      rw [Clamp_of_mem 1 (1 / 10) 4 (by norm_num) (by norm_num)]; norm_num
    rw [this]; exact RoundToInt_intCast 100
  have hlo : ((p : ℚ) / 100 ≥ 1 / 10) ↔ 10 ≤ p := by
    rw [ge_iff_le, le_div_iff₀ (by norm_num)]
    constructor
    · intro h; have : ((10 : Int) : ℚ) ≤ (p : ℚ) := by push_cast; linarith
      exact_mod_cast this
    · intro h; have : ((10 : Int) : ℚ) ≤ (p : ℚ) := by exact_mod_cast h
      push_cast at this; linarith
  have hhi : ((p : ℚ) / 100 ≤ 4) ↔ p ≤ 400 := by
    rw [div_le_iff₀ (by norm_num)]
    constructor
    · intro h; have : (p : ℚ) ≤ ((400 : Int) : ℚ) := by push_cast; linarith
      exact_mod_cast this
    · intro h; have : (p : ℚ) ≤ ((400 : Int) : ℚ) := by exact_mod_cast h
      push_cast at this; linarith
  have hset : (c.SetPreviewScreenPercentage p).PreviewResolutionFraction =
      if 10 ≤ p ∧ p ≤ 400 ∧ p ≠ 100 then some ((p : ℚ) / 100) else none := by
    unfold FCustomViewportClient.SetPreviewScreenPercentage
    simp only [hauto, hlo, hhi]
    split_ifs <;> rfl
  refine ⟨?_, ?_, ?_, ?_⟩
  · rintro ⟨h1, h2⟩
    by_cases h100 : p = 100
    · rw [GetPreviewScreenPercentage_unset _ (by rw [hset]; simp [h100]), h100]
    · unfold FCustomViewportClient.GetPreviewScreenPercentage
      rw [hset, if_pos ⟨h1, h2, h100⟩]
      simp only []
      rw [Clamp_of_mem _ _ _ (hlo.2 h1) (hhi.2 h2)]
      have : (p : ℚ) / 100 * 100 = (p : ℚ) := by field_simp
      rw [this]
      exact RoundToInt_intCast p
  · intro h
    apply GetPreviewScreenPercentage_unset
    rw [hset, if_neg]
    rintro ⟨h1, h2, _⟩
    exact h ⟨h1, h2⟩
  · rw [hset]
    constructor
    · intro h
      by_contra hne
      rw [if_pos (by omega)] at h
      exact Option.noConfusion h
    · intro h
      rw [if_neg (by omega)]
  · unfold FCustomViewportClient.GetPreviewScreenPercentage
    obtain ⟨hb1, hb2⟩ := Clamp_bounds
      (match c.PreviewResolutionFraction with
        | some f => f
        | none => 1) (1 / 10) 4 (by norm_num)
    apply RoundToInt_bounds
    · push_cast; linarith
    · push_cast; linarith

/-- C9 at `sampleClient`: 250 is kept, 401 and 5 give 100. -/
theorem C9_preview_screen_percentage_round_trip_witness :
    (sampleClient.SetPreviewScreenPercentage 250).GetPreviewScreenPercentage = 250 ∧
    (sampleClient.SetPreviewScreenPercentage 401).GetPreviewScreenPercentage = 100 ∧
    (sampleClient.SetPreviewScreenPercentage 5).GetPreviewScreenPercentage = 100 :=
  ⟨(C9_preview_screen_percentage_round_trip sampleClient 250).1 (by decide),
    (C9_preview_screen_percentage_round_trip sampleClient 401).2.1 (by decide),
    (C9_preview_screen_percentage_round_trip sampleClient 5).2.1 (by decide)⟩

/-! ## C10: orthographic zoom -/

theorem GetOrthoUnitsPerPixel_of_width_ne_zero (RawSize : FIntPoint) (hx : RawSize.X ≠ 0) :
    GetOrthoUnitsPerPixel RawSize = some (1 / 7500) := by
  have hxq : (RawSize.X : ℚ) ≠ 0 := by exact_mod_cast hx
  unfold GetOrthoUnitsPerPixel ComputeOrthoZoomFactor
  simp only []
  rw [if_neg (mul_ne_zero hxq (by norm_num))]
  congr 1
  field_simp
  ring

theorem CalcSceneView_ortho_extents (K : FEngineConstants) (NearClip : ℚ)
    (c : FCustomViewportClient) (RawSize : FIntPoint)
    (hx : RawSize.X ≠ 0) (ho : c.ViewportType ≠ ECustomViewportType.CVT_Perspective) :
    (CalcSceneView K NearClip c RawSize).ProjectionMatrix.bind FProjectionMatrix.OrthoExtents =
      some (((ClampViewportSize RawSize).X : ℚ) / 15000,
            ((ClampViewportSize RawSize).Y : ℚ) / 15000) := by
  simp only [CalcSceneView, if_neg ho, OrthoProjection,
    GetOrthoUnitsPerPixel_of_width_ne_zero RawSize hx, Option.map_some', Option.some_bind,
    FProjectionMatrix.OrthoExtents]
  congr 2 <;> ring

/-- C10, as stated, fails: on a viewport reporting the size (5, 0), whose width
is not zero, the zoom is 1/7500 and the orthographic half height is 1/15000,
not 0/15000; on a viewport reporting the size (-5, 4) the half width is
1/15000, not -5/15000. -/
theorem C10_counterexample_clamped_extent :
    GetOrthoUnitsPerPixel ⟨5, 0⟩ = some (1 / 7500) ∧
    (CalcSceneView sampleConstants 10 orthoClient ⟨5, 0⟩).ProjectionMatrix.bind
      FProjectionMatrix.OrthoExtents = some (5 / 15000, 1 / 15000) ∧
    (CalcSceneView sampleConstants 10 orthoClient ⟨5, 0⟩).ProjectionMatrix.bind
      FProjectionMatrix.OrthoExtents ≠ some (5 / 15000, 0 / 15000) ∧
    (CalcSceneView sampleConstants 10 orthoClient ⟨-5, 4⟩).ProjectionMatrix.bind
      FProjectionMatrix.OrthoExtents = some (1 / 15000, 4 / 15000) ∧
    (CalcSceneView sampleConstants 10 orthoClient ⟨-5, 4⟩).ProjectionMatrix.bind
      FProjectionMatrix.OrthoExtents ≠ some (-5 / 15000, 4 / 15000) := by
  have h1 := CalcSceneView_ortho_extents sampleConstants 10 orthoClient ⟨5, 0⟩
    (by decide) (by decide)
  have h2 := CalcSceneView_ortho_extents sampleConstants 10 orthoClient ⟨-5, 4⟩
    (by decide) (by decide)
  refine ⟨GetOrthoUnitsPerPixel_of_width_ne_zero ⟨5, 0⟩ (by decide), ?_, ?_, ?_, ?_⟩
  · rw [h1]; norm_num [ClampViewportSize]
  · rw [h1]; norm_num [ClampViewportSize]
  · rw [h2]; norm_num [ClampViewportSize]
  · rw [h2]; norm_num [ClampViewportSize]

/-- C10, amended. For every viewport reporting a width other than zero
`GetOrthoUnitsPerPixel` returns 1/7500, and in the orthographic branch of
`CalcSceneView` the half extents are `X/15000` and `Y/15000` for the viewport
size `(X, Y)` after each dimension is raised to at least 1; they are the
reported width and height over 15000 when both are at least 1. -/
theorem C10_ortho_zoom_is_constant (K : FEngineConstants) (NearClip : ℚ)
    (c : FCustomViewportClient) (RawSize : FIntPoint)
    (hx : RawSize.X ≠ 0) (ho : c.ViewportType ≠ ECustomViewportType.CVT_Perspective) :
    GetOrthoUnitsPerPixel RawSize = some (1 / 7500) ∧
    (CalcSceneView K NearClip c RawSize).ProjectionMatrix.bind FProjectionMatrix.OrthoExtents =
      some (((ClampViewportSize RawSize).X : ℚ) / 15000,
            ((ClampViewportSize RawSize).Y : ℚ) / 15000) ∧
    (ClampViewportSize RawSize).X = max RawSize.X 1 ∧
    (ClampViewportSize RawSize).Y = max RawSize.Y 1 ∧
    (1 ≤ RawSize.X → 1 ≤ RawSize.Y →
      (CalcSceneView K NearClip c RawSize).ProjectionMatrix.bind FProjectionMatrix.OrthoExtents =
        some ((RawSize.X : ℚ) / 15000, (RawSize.Y : ℚ) / 15000)) := by
  have hext := CalcSceneView_ortho_extents K NearClip c RawSize hx ho
  refine ⟨GetOrthoUnitsPerPixel_of_width_ne_zero RawSize hx, hext, rfl, rfl, ?_⟩
  intro h1 h2
  rw [hext]
  simp [ClampViewportSize, max_eq_left h1, max_eq_left h2]

/-- C10, amended, at `orthoClient` and a viewport of 800 by 600. -/
theorem C10_ortho_zoom_is_constant_witness :
    (FIntPoint.mk 800 600).X ≠ 0 ∧
    orthoClient.ViewportType ≠ ECustomViewportType.CVT_Perspective ∧
    GetOrthoUnitsPerPixel ⟨800, 600⟩ = some (1 / 7500) ∧
    (CalcSceneView sampleConstants 10 orthoClient ⟨800, 600⟩).ProjectionMatrix.bind
      FProjectionMatrix.OrthoExtents =
      some ((((800 : Int) : ℚ)) / 15000, (((600 : Int) : ℚ)) / 15000) :=
  ⟨by decide, by decide,
    (C10_ortho_zoom_is_constant sampleConstants 10 orthoClient ⟨800, 600⟩
      (by decide) (by decide)).1,
    (C10_ortho_zoom_is_constant sampleConstants 10 orthoClient ⟨800, 600⟩
      (by decide) (by decide)).2.2.2.2 (by decide) (by decide)⟩

/-! ## C11: the axis multipliers of the perspective branch -/

theorem ClampViewportSize_pos (RawSize : FIntPoint) :
    1 ≤ (ClampViewportSize RawSize).X ∧ 1 ≤ (ClampViewportSize RawSize).Y :=
  ⟨le_max_right _ _, le_max_right _ _⟩

theorem CalcSceneView_perspective (K : FEngineConstants) (NearClip : ℚ)
    (c : FCustomViewportClient) (RawSize : FIntPoint)
    (hp : c.ViewportType = ECustomViewportType.CVT_Perspective) :
    (CalcSceneView K NearClip c RawSize).ProjectionMatrix =
      some (PerspectiveProjection K NearClip c.ViewFOV
        EAspectRatioAxisConstraint.AspectRatio_MajorAxisFOV (ClampViewportSize RawSize)) := by
  simp [CalcSceneView, hp]

/-- C11. In the perspective branch of `CalcSceneView`, for the viewport size
`(X, Y)` after each dimension is clamped to at least 1, both divisors are
non-zero; when `X > Y` the multipliers are `1` and `X/Y`, otherwise they are
`Y/X` and `1`; both are at least 1, one of them is exactly 1, and the quotient
of the Y multiplier by the X multiplier is `X/Y`. -/
theorem C11_axis_multipliers (K : FEngineConstants) (NearClip : ℚ)
    (c : FCustomViewportClient) (RawSize : FIntPoint)
    (hp : c.ViewportType = ECustomViewportType.CVT_Perspective) :
    ∃ XAxisMultiplier YAxisMultiplier : ℚ,
      (CalcSceneView K NearClip c RawSize).ProjectionMatrix.bind
        FProjectionMatrix.PerspectiveMultipliers = some (XAxisMultiplier, YAxisMultiplier) ∧
      ((ClampViewportSize RawSize).X : ℚ) ≠ 0 ∧ ((ClampViewportSize RawSize).Y : ℚ) ≠ 0 ∧
      ((ClampViewportSize RawSize).X > (ClampViewportSize RawSize).Y →
        XAxisMultiplier = 1 ∧
        YAxisMultiplier =
          ((ClampViewportSize RawSize).X : ℚ) / ((ClampViewportSize RawSize).Y : ℚ)) ∧
      (¬ (ClampViewportSize RawSize).X > (ClampViewportSize RawSize).Y →
        XAxisMultiplier =
          ((ClampViewportSize RawSize).Y : ℚ) / ((ClampViewportSize RawSize).X : ℚ) ∧
        YAxisMultiplier = 1) ∧
      1 ≤ XAxisMultiplier ∧ 1 ≤ YAxisMultiplier ∧
      (XAxisMultiplier = 1 ∨ YAxisMultiplier = 1) ∧
      YAxisMultiplier / XAxisMultiplier =
        ((ClampViewportSize RawSize).X : ℚ) / ((ClampViewportSize RawSize).Y : ℚ) := by
  obtain ⟨hx, hy⟩ := ClampViewportSize_pos RawSize
  rw [CalcSceneView_perspective K NearClip c RawSize hp]
  generalize ClampViewportSize RawSize = S at hx hy ⊢
  have hxq : (1 : ℚ) ≤ (S.X : ℚ) := by exact_mod_cast hx
  have hyq : (1 : ℚ) ≤ (S.Y : ℚ) := by exact_mod_cast hy
  have hx0 : (S.X : ℚ) ≠ 0 := by linarith
  have hy0 : (S.Y : ℚ) ≠ 0 := by linarith
  by_cases hw : S.X > S.Y
  · have hwq : (S.Y : ℚ) < (S.X : ℚ) := by exact_mod_cast hw
    refine ⟨1, (S.X : ℚ) / (S.Y : ℚ), ?_, hx0, hy0, fun _ => ⟨rfl, rfl⟩,
      fun h => absurd hw h, le_refl _, ?_, Or.inl rfl, by simp⟩
    · simp [PerspectiveProjection, FProjectionMatrix.PerspectiveMultipliers, hw]
    · rw [le_div_iff₀ (by linarith)]; linarith
  · have hwq : (S.X : ℚ) ≤ (S.Y : ℚ) := by exact_mod_cast not_lt.1 hw
    refine ⟨(S.Y : ℚ) / (S.X : ℚ), 1, ?_, hx0, hy0, fun h => absurd h hw,
      fun _ => ⟨rfl, rfl⟩, ?_, le_refl _, Or.inr rfl, ?_⟩
    · simp [PerspectiveProjection, FProjectionMatrix.PerspectiveMultipliers, hw]
    · rw [le_div_iff₀ (by linarith)]; linarith
    · field_simp

/-- C11 at `sampleClient` and a viewport of 800 by 600. -/
theorem C11_axis_multipliers_witness :
    sampleClient.ViewportType = ECustomViewportType.CVT_Perspective ∧
    ∃ XAxisMultiplier YAxisMultiplier : ℚ,
      (CalcSceneView sampleConstants 10 sampleClient ⟨800, 600⟩).ProjectionMatrix.bind
        FProjectionMatrix.PerspectiveMultipliers = some (XAxisMultiplier, YAxisMultiplier) ∧
      ((ClampViewportSize ⟨800, 600⟩).X : ℚ) ≠ 0 ∧ ((ClampViewportSize ⟨800, 600⟩).Y : ℚ) ≠ 0 ∧
      ((ClampViewportSize ⟨800, 600⟩).X > (ClampViewportSize ⟨800, 600⟩).Y →
        XAxisMultiplier = 1 ∧
        YAxisMultiplier =
          ((ClampViewportSize ⟨800, 600⟩).X : ℚ) / ((ClampViewportSize ⟨800, 600⟩).Y : ℚ)) ∧
      (¬ (ClampViewportSize ⟨800, 600⟩).X > (ClampViewportSize ⟨800, 600⟩).Y →
        XAxisMultiplier =
          ((ClampViewportSize ⟨800, 600⟩).Y : ℚ) / ((ClampViewportSize ⟨800, 600⟩).X : ℚ) ∧
        YAxisMultiplier = 1) ∧
      1 ≤ XAxisMultiplier ∧ 1 ≤ YAxisMultiplier ∧
      (XAxisMultiplier = 1 ∨ YAxisMultiplier = 1) ∧
      YAxisMultiplier / XAxisMultiplier =
        ((ClampViewportSize ⟨800, 600⟩).X : ℚ) / ((ClampViewportSize ⟨800, 600⟩).Y : ℚ) :=
  ⟨rfl, C11_axis_multipliers sampleConstants 10 sampleClient ⟨800, 600⟩ rfl⟩

/-! ## C12: the half angle of the perspective matrix -/

theorem MatrixFOV_pos {F : Type} [LinearOrderedField F] (PI ModifiedViewFOV : F) (hpi : 0 < PI) :
    0 < MatrixFOV PI ModifiedViewFOV := by
  unfold MatrixFOV
  have h : (0 : F) < max (1 / 1000) ModifiedViewFOV :=
    lt_of_lt_of_le (by norm_num) (le_max_left _ _)
  exact div_pos (mul_pos h hpi) (by norm_num)

theorem MatrixFOV_of_ge {F : Type} [LinearOrderedField F] (PI ModifiedViewFOV : F)
    (h : 1 / 1000 ≤ ModifiedViewFOV) :
    MatrixFOV PI ModifiedViewFOV = ModifiedViewFOV * PI / 360 := by
  unfold MatrixFOV
  rw [max_eq_right h]

theorem PerspectiveProjection_halfFOV (K : FEngineConstants) (NearClip ModifiedViewFOV : ℚ)
    (A : EAspectRatioAxisConstraint) (ViewportSize : FIntPoint) :
    (PerspectiveProjection K NearClip ModifiedViewFOV A ViewportSize).PerspectiveHalfFOV =
      some (MatrixFOV K.PI ModifiedViewFOV, MatrixFOV K.PI ModifiedViewFOV) := by
  simp [PerspectiveProjection, FProjectionMatrix.PerspectiveHalfFOV, MatrixFOV]

/-- The tangent of a positive rational angle is neither zero nor undefined:
the zeros and poles of the tangent are the integer multiples of pi/2, which
are irrational apart from 0. -/
theorem tan_ratCast_ne_zero (h : ℚ) (hpos : 0 < h) :
    Real.tan (h : ℝ) ≠ 0 ∧ Real.cos (h : ℝ) ≠ 0 := by
  have htan : Real.tan (h : ℝ) ≠ 0 := by
    intro hzero
    obtain ⟨k, hk⟩ := Real.tan_eq_zero_iff.1 hzero
    have hk0 : k ≠ 0 := by
      rintro rfl
      have : (h : ℝ) = 0 := by rw [← hk]; simp
      have : h = 0 := by exact_mod_cast this
      exact absurd this (ne_of_gt hpos)
    have hkq : ((k : ℚ) : ℝ) ≠ 0 := by exact_mod_cast hk0
    apply irrational_pi
    refine ⟨2 * h / (k : ℚ), ?_⟩
    push_cast
    have hkr : (k : ℝ) ≠ 0 := by exact_mod_cast hk0
    rw [← hk]
    field_simp
  refine ⟨htan, ?_⟩
  intro hcos
  apply htan
  rw [Real.tan_eq_sin_div_cos, hcos, div_zero]

/-- C12. The half angle passed to the perspective matrix is
`h = max(0.001, ViewFOV) * PI / 360` with the code's constant `PI`; for every
`ViewFOV`, zero and negative values included, it is strictly positive, it is
`ViewFOV * PI / 360` whenever `ViewFOV ≥ 0.001`, and its tangent is neither
zero nor undefined, so the matrix term `1 / tan(h)` does not divide by zero.
The constant `PI` of the code is a positive `float`, a rational number. -/
theorem C12_half_angle_guard (K : FEngineConstants) (NearClip ViewFOV : ℚ)
    (A : EAspectRatioAxisConstraint) (ViewportSize : FIntPoint) (hpi : 0 < K.PI) :
    (PerspectiveProjection K NearClip ViewFOV A ViewportSize).PerspectiveHalfFOV =
      some (MatrixFOV K.PI ViewFOV, MatrixFOV K.PI ViewFOV) ∧
    MatrixFOV K.PI ViewFOV = max (1 / 1000) ViewFOV * K.PI / 360 ∧
    0 < MatrixFOV K.PI ViewFOV ∧
    (1 / 1000 ≤ ViewFOV → MatrixFOV K.PI ViewFOV = ViewFOV * K.PI / 360) ∧
    Real.tan ((MatrixFOV K.PI ViewFOV : ℚ) : ℝ) ≠ 0 ∧
    Real.cos ((MatrixFOV K.PI ViewFOV : ℚ) : ℝ) ≠ 0 := by
  have hpos := MatrixFOV_pos K.PI ViewFOV hpi
  obtain ⟨ht, hc⟩ := tan_ratCast_ne_zero (MatrixFOV K.PI ViewFOV) hpos
  exact ⟨PerspectiveProjection_halfFOV K NearClip ViewFOV A ViewportSize, rfl, hpos,
    MatrixFOV_of_ge K.PI ViewFOV, ht, hc⟩

/-- C12 at the constants of `sampleConstants` and the fields of view 360, 0
and -5. -/
theorem C12_half_angle_guard_witness :
    0 < sampleConstants.PI ∧
    Real.tan ((MatrixFOV sampleConstants.PI 360 : ℚ) : ℝ) ≠ 0 ∧
    0 < MatrixFOV sampleConstants.PI 0 ∧
    0 < MatrixFOV sampleConstants.PI (-5) ∧
    MatrixFOV sampleConstants.PI 360 = 360 * sampleConstants.PI / 360 :=
  ⟨by norm_num [sampleConstants],
    (C12_half_angle_guard sampleConstants 10 360
      EAspectRatioAxisConstraint.AspectRatio_MajorAxisFOV ⟨800, 600⟩
      (by norm_num [sampleConstants])).2.2.2.2.1,
    (C12_half_angle_guard sampleConstants 10 0
      EAspectRatioAxisConstraint.AspectRatio_MajorAxisFOV ⟨800, 600⟩
      (by norm_num [sampleConstants])).2.2.1,
    (C12_half_angle_guard sampleConstants 10 (-5)
      EAspectRatioAxisConstraint.AspectRatio_MajorAxisFOV ⟨800, 600⟩
      (by norm_num [sampleConstants])).2.2.1,
    (C12_half_angle_guard sampleConstants 10 360
      EAspectRatioAxisConstraint.AspectRatio_MajorAxisFOV ⟨800, 600⟩
      (by norm_num [sampleConstants])).2.2.2.1 (by norm_num)⟩

/-! ## C13: the view rectangle -/

/-- C13. For every size the viewport reports, zero and negative dimensions
included, the rectangle `CalcSceneView` sets is
`[(0, 0), (max(X, 1), max(Y, 1))]`: its origin is (0, 0), its width and its
height are at least 1, it passes the validity test, and so the rectangle of the
init options is this rectangle and not the 1x1 fallback. -/
theorem C13_view_rectangle_is_valid (K : FEngineConstants) (NearClip : ℚ)
    (c : FCustomViewportClient) (RawSize : FIntPoint) :
    CalcViewRect RawSize = ⟨⟨0, 0⟩, ⟨max RawSize.X 1, max RawSize.Y 1⟩⟩ ∧
    (CalcViewRect RawSize).Min = ⟨0, 0⟩ ∧
    1 ≤ (CalcViewRect RawSize).Max.X - (CalcViewRect RawSize).Min.X ∧
    1 ≤ (CalcViewRect RawSize).Max.Y - (CalcViewRect RawSize).Min.Y ∧
    IsValidViewRectangle (CalcViewRect RawSize) = true ∧
    (CalcSceneView K NearClip c RawSize).ViewRect =
      (if !(IsValidViewRectangle (CalcViewRect RawSize)) then ⟨⟨0, 0⟩, ⟨1, 1⟩⟩
       else CalcViewRect RawSize) ∧
    (CalcSceneView K NearClip c RawSize).ViewRect = CalcViewRect RawSize := by
  have hrect : CalcViewRect RawSize = ⟨⟨0, 0⟩, ⟨max RawSize.X 1, max RawSize.Y 1⟩⟩ := by
    simp [CalcViewRect, ClampViewportSize]
  have hx : (1 : Int) ≤ max RawSize.X 1 := le_max_right _ _
  have hy : (1 : Int) ≤ max RawSize.Y 1 := le_max_right _ _
  have hvalid : IsValidViewRectangle (CalcViewRect RawSize) = true := by
    rw [hrect]
    simp only [IsValidViewRectangle, Bool.and_eq_true, decide_eq_true_eq]
    omega
  have hcalc : (CalcSceneView K NearClip c RawSize).ViewRect =
      (if !(IsValidViewRectangle (CalcViewRect RawSize)) then ⟨⟨0, 0⟩, ⟨1, 1⟩⟩
       else CalcViewRect RawSize) := rfl
  refine ⟨hrect, by rw [hrect], ?_, ?_, hvalid, hcalc, ?_⟩
  · rw [hrect]; simp only []; omega
  · rw [hrect]; simp only []; omega
  · rw [hcalc, hvalid]; rfl

/-- C13 at a viewport reporting the size (0, -3): the rectangle is
`[(0, 0), (1, 1)]` through the clamp. -/
theorem C13_view_rectangle_is_valid_witness :
    CalcViewRect ⟨0, -3⟩ = ⟨⟨0, 0⟩, ⟨max 0 1, max (-3) 1⟩⟩ ∧
    IsValidViewRectangle (CalcViewRect ⟨0, -3⟩) = true ∧
    (CalcSceneView sampleConstants 10 sampleClient ⟨0, -3⟩).ViewRect = CalcViewRect ⟨0, -3⟩ :=
  ⟨(C13_view_rectangle_is_valid sampleConstants 10 sampleClient ⟨0, -3⟩).1,
    (C13_view_rectangle_is_valid sampleConstants 10 sampleClient ⟨0, -3⟩).2.2.2.2.1,
    (C13_view_rectangle_is_valid sampleConstants 10 sampleClient ⟨0, -3⟩).2.2.2.2.2.2⟩

/-! ## C15: `SetViewMode` -/

/-- C15. `SetViewMode(m)` stores `m` in `PerspViewModeIndex` and keeps
`OrthoViewModeIndex` when the viewport type is perspective, and stores `m` in
`OrthoViewModeIndex` and keeps `PerspViewModeIndex` otherwise; in both cases
afterwards `ViewModeParam` is -1, `ViewModeParamName` is `NAME_None`, the
parameter-name map is empty and the viewport type is the same. -/
theorem C15_SetViewMode_tracks_mode_per_projection (V : FViewModeHost)
    (c : FCustomViewportClient) (m : EViewModeIndex) :
    (c.ViewportType = ECustomViewportType.CVT_Perspective →
      (c.SetViewMode V m).PerspViewModeIndex = m ∧
      (c.SetViewMode V m).OrthoViewModeIndex = c.OrthoViewModeIndex) ∧
    (c.ViewportType ≠ ECustomViewportType.CVT_Perspective →
      (c.SetViewMode V m).OrthoViewModeIndex = m ∧
      (c.SetViewMode V m).PerspViewModeIndex = c.PerspViewModeIndex) ∧
    (c.SetViewMode V m).ViewModeParam = -1 ∧
    (c.SetViewMode V m).ViewModeParamName = none ∧
    (c.SetViewMode V m).ViewModeParamNameMap = [] ∧
    (c.SetViewMode V m).ViewportType = c.ViewportType := by
  by_cases hp : c.ViewportType = ECustomViewportType.CVT_Perspective
  · simp [FCustomViewportClient.SetViewMode, FCustomViewportClient.IsPerspective,
      FCustomViewportClient.GetViewportType, hp]
  · simp [FCustomViewportClient.SetViewMode, FCustomViewportClient.IsPerspective,
      FCustomViewportClient.GetViewportType, hp]

/-- C15 at the perspective `sampleClient` and the orthographic `orthoClient`. -/
theorem C15_SetViewMode_tracks_mode_per_projection_witness :
    ((sampleClient.SetViewMode sampleViewModeHost 7).PerspViewModeIndex = 7 ∧
      (sampleClient.SetViewMode sampleViewModeHost 7).OrthoViewModeIndex =
        sampleClient.OrthoViewModeIndex) ∧
    ((orthoClient.SetViewMode sampleViewModeHost 7).OrthoViewModeIndex = 7 ∧
      (orthoClient.SetViewMode sampleViewModeHost 7).PerspViewModeIndex =
        orthoClient.PerspViewModeIndex) ∧
    (sampleClient.SetViewMode sampleViewModeHost 7).ViewModeParam = -1 :=
  ⟨(C15_SetViewMode_tracks_mode_per_projection sampleViewModeHost sampleClient 7).1 rfl,
    (C15_SetViewMode_tracks_mode_per_projection sampleViewModeHost orthoClient 7).2.1
      (by decide),
    (C15_SetViewMode_tracks_mode_per_projection sampleViewModeHost sampleClient 7).2.2.1⟩

/-! ## C16: `SetGameView` -/

/-- C16. For every pair of show-flag sets and either argument, after the swap
of the game and editor flags both `EngineShowFlags.CompositeEditorPrimitives`
and `LastEngineShowFlags.CompositeEditorPrimitives` have the value
`EngineShowFlags.CompositeEditorPrimitives` had before the call; after the call
`bInGameViewMode` is the argument, `LastEngineShowFlags` still has that value,
and `EngineShowFlags` is what the engine's `ApplyViewMode` returns for the
swapped flags, so it has that value too whenever `ApplyViewMode` leaves the
flag alone. -/
theorem C16_SetGameView_preserves_composite (V : FViewModeHost) (c : FCustomViewportClient)
    (bGameViewEnable : Bool) :
    (c.SetGameViewFlags V bGameViewEnable).EngineShowFlags.CompositeEditorPrimitives =
      c.EngineShowFlags.CompositeEditorPrimitives ∧
    (c.SetGameViewFlags V bGameViewEnable).LastEngineShowFlags.CompositeEditorPrimitives =
      c.EngineShowFlags.CompositeEditorPrimitives ∧
    (c.SetGameView V bGameViewEnable).LastEngineShowFlags.CompositeEditorPrimitives =
      c.EngineShowFlags.CompositeEditorPrimitives ∧
    (c.SetGameView V bGameViewEnable).bInGameViewMode = bGameViewEnable ∧
    (c.SetGameView V bGameViewEnable).EngineShowFlags =
      V.ApplyViewMode (V.GetViewMode (c.SetGameViewFlags V bGameViewEnable))
        (c.SetGameViewFlags V bGameViewEnable).IsPerspective
        (c.SetGameViewFlags V bGameViewEnable).EngineShowFlags ∧
    ((∀ m p f, (V.ApplyViewMode m p f).CompositeEditorPrimitives =
        f.CompositeEditorPrimitives) →
      (c.SetGameView V bGameViewEnable).EngineShowFlags.CompositeEditorPrimitives =
        c.EngineShowFlags.CompositeEditorPrimitives) := by
  have h1 : (c.SetGameViewFlags V bGameViewEnable).EngineShowFlags.CompositeEditorPrimitives =
      c.EngineShowFlags.CompositeEditorPrimitives := by
    unfold FCustomViewportClient.SetGameViewFlags
    cases bGameViewEnable <;> simp
  have h2 : (c.SetGameViewFlags V bGameViewEnable).LastEngineShowFlags.CompositeEditorPrimitives =
      c.EngineShowFlags.CompositeEditorPrimitives := by
    unfold FCustomViewportClient.SetGameViewFlags
    cases bGameViewEnable <;> simp
  refine ⟨h1, h2, h2, rfl, rfl, ?_⟩
  intro hV
  show (V.ApplyViewMode _ _ _).CompositeEditorPrimitives = _
  rw [hV, h1]

/-- C16 at `sampleClient`, an editor view that composites editor primitives
and whose last flags are game flags that do not: after switching to game view
both flag sets composite editor primitives. -/
theorem C16_SetGameView_preserves_composite_witness :
    sampleClient.EngineShowFlags.CompositeEditorPrimitives = true ∧
    sampleClient.LastEngineShowFlags.CompositeEditorPrimitives = false ∧
    (sampleClient.SetGameView sampleViewModeHost true).LastEngineShowFlags.CompositeEditorPrimitives =
      sampleClient.EngineShowFlags.CompositeEditorPrimitives ∧
    (sampleClient.SetGameView sampleViewModeHost true).EngineShowFlags.CompositeEditorPrimitives =
      sampleClient.EngineShowFlags.CompositeEditorPrimitives ∧
    (sampleClient.SetGameView sampleViewModeHost true).bInGameViewMode = true :=
  ⟨rfl, rfl,
    (C16_SetGameView_preserves_composite sampleViewModeHost sampleClient true).2.2.1,
    (C16_SetGameView_preserves_composite sampleViewModeHost sampleClient true).2.2.2.2.2
      (fun _ _ _ => rfl),
    (C16_SetGameView_preserves_composite sampleViewModeHost sampleClient true).2.2.2.1⟩

/-! ## C17: `IsNotEqual` -/

theorem IsNotEqualLoop_eq_false_iff {T : Type} (H : Host T)
    (A B : List (FViewportWidgetEntry T)) (hlen : A.length = B.length) :
    IsNotEqualLoop H A B = false ↔
      ∀ (i : Nat) (h₁ : i < A.length) (h₂ : i < B.length),
        A[i].ActorClassPtr = B[i].ActorClassPtr ∧
        H.Equals A[i].SpawnTransform B[i].SpawnTransform = true := by
  induction A generalizing B with
  | nil =>
    simp [IsNotEqualLoop]
  | cons a A ih =>
    cases B with
    | nil => simp at hlen
    | cons b B =>
      have hlen' : A.length = B.length := by simpa using hlen
      unfold IsNotEqualLoop
      by_cases hc : a.ActorClassPtr = b.ActorClassPtr ∧ H.Equals a.SpawnTransform b.SpawnTransform = true
      · have hcond : ((a.ActorClassPtr != b.ActorClassPtr) ||
            !(H.Equals a.SpawnTransform b.SpawnTransform)) = false := by
          simp [hc.1, hc.2]
        rw [hcond]
        simp only [Bool.false_eq_true, if_false]
        rw [ih B hlen']
        constructor
        · intro h i h₁ h₂
          cases i with
          | zero => exact hc
          | succ j =>
            exact h j (by simpa using h₁) (by simpa using h₂)
        · intro h i h₁ h₂
          exact h (i + 1) (by simpa using h₁) (by simpa using h₂)
      · have hcond : ((a.ActorClassPtr != b.ActorClassPtr) ||
            !(H.Equals a.SpawnTransform b.SpawnTransform)) = true := by
          by_cases h1 : a.ActorClassPtr = b.ActorClassPtr
          · have h2 : H.Equals a.SpawnTransform b.SpawnTransform = false := by
              cases he : H.Equals a.SpawnTransform b.SpawnTransform
              · rfl
              · exact absurd ⟨h1, he⟩ hc
            simp [h2]
          · simp [h1]
        rw [hcond]
        simp only [if_true]
        constructor
        · intro h; exact Bool.noConfusion h
        · intro h
          exact absurd (h 0 (by simp) (by simp)) hc

theorem IsNotEqual_eq_false_iff {T : Type} (H : Host T) (A B : List (FViewportWidgetEntry T)) :
    IsNotEqual H A B = false ↔
      A.length = B.length ∧
      ∀ (i : Nat) (h₁ : i < A.length) (h₂ : i < B.length),
        A[i].ActorClassPtr = B[i].ActorClassPtr ∧
        H.Equals A[i].SpawnTransform B[i].SpawnTransform = true := by
  unfold IsNotEqual
  by_cases hlen : A.length = B.length
  · have : (A.length != B.length) = false := by simp [hlen]
    rw [this]
    simp only [Bool.false_eq_true, if_false]
    rw [IsNotEqualLoop_eq_false_iff H A B hlen]
    exact ⟨fun h => ⟨hlen, h⟩, fun h => h.2⟩
  · have : (A.length != B.length) = true := by simp [hlen]
    rw [this]
    simp only [if_true]
    exact ⟨fun h => Bool.noConfusion h, fun h => absurd h.1 hlen⟩

theorem IsNotEqualLoop_congr_requests {T : Type} (H : Host T)
    (A A' B B' : List (FViewportWidgetEntry T))
    (hA : A'.map FViewportWidgetEntry.Request = A.map FViewportWidgetEntry.Request)
    (hB : B'.map FViewportWidgetEntry.Request = B.map FViewportWidgetEntry.Request) :
    IsNotEqualLoop H A' B' = IsNotEqualLoop H A B := by
  induction A generalizing A' B B' with
  | nil =>
    have : A' = [] := by simpa using hA
    subst this
    simp [IsNotEqualLoop]
  | cons a A ih =>
    cases A' with
    | nil => simp at hA
    | cons a' A' =>
      simp only [List.map_cons, List.cons.injEq] at hA
      cases B with
      | nil =>
        have : B' = [] := by simpa using hB
        subst this
        simp [IsNotEqualLoop]
      | cons b B =>
        cases B' with
        | nil => simp at hB
        | cons b' B' =>
          simp only [List.map_cons, List.cons.injEq] at hB
          have ha1 : a'.ActorClassPtr = a.ActorClassPtr := congrArg Prod.fst hA.1
          have ha2 : a'.SpawnTransform = a.SpawnTransform := congrArg Prod.snd hA.1
          have hb1 : b'.ActorClassPtr = b.ActorClassPtr := congrArg Prod.fst hB.1
          have hb2 : b'.SpawnTransform = b.SpawnTransform := congrArg Prod.snd hB.1
          unfold IsNotEqualLoop
          rw [ha1, ha2, hb1, hb2, ih A' B B' hA.2 hB.2]

/-- C17. `IsNotEqual(A, B)` returns false exactly when `A` and `B` have the
same length and at every index the same actor class and transforms for which
`FTransform::Equals` holds; its result is the same for any two lists that carry
the same classes and transforms, whatever their back-references;
`IsNotEqual(A, A)` is false when `FTransform::Equals` is reflexive, and
`IsNotEqual(A, B) = IsNotEqual(B, A)` when `FTransform::Equals` is symmetric. -/
theorem C17_IsNotEqual_is_negated_equality {T : Type} (H : Host T)
    (A B : List (FViewportWidgetEntry T)) :
    (IsNotEqual H A B = false ↔
      A.length = B.length ∧
      ∀ (i : Nat) (h₁ : i < A.length) (h₂ : i < B.length),
        A[i].ActorClassPtr = B[i].ActorClassPtr ∧
        H.Equals A[i].SpawnTransform B[i].SpawnTransform = true) ∧
    (∀ A' B' : List (FViewportWidgetEntry T),
      A'.map FViewportWidgetEntry.Request = A.map FViewportWidgetEntry.Request →
      B'.map FViewportWidgetEntry.Request = B.map FViewportWidgetEntry.Request →
      IsNotEqual H A' B' = IsNotEqual H A B) ∧
    ((∀ t, H.Equals t t = true) → IsNotEqual H A A = false) ∧
    ((∀ t u, H.Equals t u = H.Equals u t) → IsNotEqual H A B = IsNotEqual H B A) := by
  refine ⟨IsNotEqual_eq_false_iff H A B, ?_, ?_, ?_⟩
  · intro A' B' hA hB
    have hlA : A'.length = A.length := by simpa using congrArg List.length hA
    have hlB : B'.length = B.length := by simpa using congrArg List.length hB
    unfold IsNotEqual
    rw [hlA, hlB, IsNotEqualLoop_congr_requests H A A' B B' hA hB]
  · intro hrefl
    rw [IsNotEqual_eq_false_iff]
    exact ⟨rfl, fun i _ _ => ⟨rfl, hrefl _⟩⟩
  · intro hsymm
    have key : ∀ X Y : List (FViewportWidgetEntry T),
        IsNotEqual H X Y = false → IsNotEqual H Y X = false := by
      intro X Y h
      rw [IsNotEqual_eq_false_iff] at h ⊢
      refine ⟨h.1.symm, fun i h₁ h₂ => ?_⟩
      obtain ⟨hc, he⟩ := h.2 i h₂ h₁
      exact ⟨hc.symm, by rw [hsymm]; exact he⟩
    cases hab : IsNotEqual H A B with
    | false => exact (key A B hab).symm
    | true =>
      cases hba : IsNotEqual H B A with
      | false => rw [key B A hba] at hab; exact Bool.noConfusion hab
      | true => rfl

/-- C17 at `sampleHost`, whose `Equals` is reflexive and symmetric. -/
theorem C17_IsNotEqual_is_negated_equality_witness :
    IsNotEqual sampleHost sampleEntries sampleEntries = false ∧
    IsNotEqual sampleHost sampleEntries [⟨5, 10, some 0⟩, ⟨6, 11, some 1⟩] =
      IsNotEqual sampleHost [⟨5, 10, some 0⟩, ⟨6, 11, some 1⟩] sampleEntries ∧
    IsNotEqual sampleHost [⟨0, 1, some 9⟩, ⟨3, 4, none⟩] sampleEntries =
      IsNotEqual sampleHost sampleEntries sampleEntries :=
  ⟨(C17_IsNotEqual_is_negated_equality sampleHost sampleEntries sampleEntries).2.2.1
      (fun t => by simp [sampleHost]),
    (C17_IsNotEqual_is_negated_equality sampleHost sampleEntries
      [⟨5, 10, some 0⟩, ⟨6, 11, some 1⟩]).2.2.2
      (fun t u => by simp [sampleHost, eq_comm]),
    (C17_IsNotEqual_is_negated_equality sampleHost sampleEntries sampleEntries).2.1
      [⟨0, 1, some 9⟩, ⟨3, 4, none⟩] sampleEntries rfl rfl⟩

/-! ## C18: `SetEntries` on an unchanged list -/

/-- C18. When a list is stored and the new list has the same length and, index
by index, the same actor class and a transform for which `FTransform::Equals`
holds, `SetEntries` leaves the widget as it is: the world and so its record of
`DestroyActor` and `SpawnActor` calls is the same, the stored entries with
their back-references are the same, and `GetSpawnedActor` returns the same
actor at every index. -/
theorem C18_SetEntries_unchanged_list_is_noop {T : Type} (H : Host T)
    (s : SViewportWidget T) (stored entries : List (FViewportWidgetEntry T))
    (hs : s.Entries = some stored) (hlen : stored.length = entries.length)
    (hsame : ∀ (i : Nat) (h₁ : i < stored.length) (h₂ : i < entries.length),
      stored[i].ActorClassPtr = entries[i].ActorClassPtr ∧
      H.Equals stored[i].SpawnTransform entries[i].SpawnTransform = true) :
    s.SetEntries H entries = s ∧
    (s.SetEntries H entries).World = s.World ∧
    (s.SetEntries H entries).Entries = some stored ∧
    (∀ i : Int, (s.SetEntries H entries).GetSpawnedActor i = s.GetSpawnedActor i) := by
  have hchg : s.EntriesChanged H entries = false := by
    unfold SViewportWidget.EntriesChanged
    rw [hs]
    exact (IsNotEqual_eq_false_iff H stored entries).2 ⟨hlen, hsame⟩
  have heq := SetEntries_unchanged H s entries hchg
  rw [heq]
  exact ⟨rfl, rfl, hs, fun _ => rfl⟩

/-- C18 at `sampleWidget` and a new list with the stored classes and
transforms but without back-references. -/
theorem C18_SetEntries_unchanged_list_is_noop_witness :
    sampleWidget.SetEntries sampleHost [⟨5, 10, none⟩, ⟨6, 11, none⟩] = sampleWidget ∧
    (sampleWidget.SetEntries sampleHost [⟨5, 10, none⟩, ⟨6, 11, none⟩]).World =
      sampleWidget.World ∧
    (sampleWidget.SetEntries sampleHost [⟨5, 10, none⟩, ⟨6, 11, none⟩]).Entries =
      some [⟨5, 10, some 0⟩, ⟨6, 11, some 1⟩] ∧
    (∀ i : Int, (sampleWidget.SetEntries sampleHost [⟨5, 10, none⟩, ⟨6, 11, none⟩]).GetSpawnedActor i =
      sampleWidget.GetSpawnedActor i) :=
  C18_SetEntries_unchanged_list_is_noop sampleHost sampleWidget
    [⟨5, 10, some 0⟩, ⟨6, 11, some 1⟩] [⟨5, 10, none⟩, ⟨6, 11, none⟩] rfl rfl
    (by
      intro i h₁ h₂
      have hi : i < 2 := h₁
      interval_cases i <;> exact ⟨rfl, rfl⟩)

/-! ## C19: the view rotation matrices of the orthographic variants -/

theorem IsSignedPermutation_of_entries (R : Matrix (Fin 3) (Fin 3) ℚ)
    (σ τ : Fin 3 → Fin 3)
    (hval : ∀ i j, R i j = 0 ∨ R i j = 1 ∨ R i j = -1)
    (hrow : ∀ i, R i (σ i) ≠ 0 ∧ ∀ k, R i k ≠ 0 → k = σ i)
    (hcol : ∀ j, R (τ j) j ≠ 0 ∧ ∀ k, R k j ≠ 0 → k = τ j) :
    IsSignedPermutation R :=
  ⟨hval, fun i => ⟨σ i, hrow i⟩, fun j => ⟨τ j, hcol j⟩⟩

theorem CalcViewRotation_OrthoXY (r : FRotator) :
    ∃ M : FMatrix, CalcViewRotation r ECustomViewportType.CVT_OrthoXY =
        FViewRotationMatrix.Fixed M ∧
      IsSignedPermutation M.Rotation3 ∧
      M.Rotation3 * Matrix.transpose M.Rotation3 = 1 ∧
      M.Rotation3.det = 1 ∧
      M.HasUnitLastRowAndColumn := by
  refine ⟨_, rfl, ?_, ?_, ?_, ?_⟩
  · refine IsSignedPermutation_of_entries _ ![0, 1, 2] ![0, 1, 2] ?_ ?_ ?_
    · intro i j; fin_cases i <;> fin_cases j <;> simp [FMatrix.Rotation3]
    · intro i; fin_cases i <;> refine ⟨by simp [FMatrix.Rotation3], fun k => ?_⟩ <;>
        fin_cases k <;> simp [FMatrix.Rotation3]
    · intro j; fin_cases j <;> refine ⟨by simp [FMatrix.Rotation3], fun k => ?_⟩ <;>
        fin_cases k <;> simp [FMatrix.Rotation3]
  · ext i j; fin_cases i <;> fin_cases j <;>
      simp [FMatrix.Rotation3, Matrix.mul_apply, Fin.sum_univ_three]
  · simp [FMatrix.Rotation3, Matrix.det_fin_three]
  · exact ⟨rfl, rfl, rfl, rfl⟩

theorem CalcViewRotation_OrthoXZ (r : FRotator) :
    ∃ M : FMatrix, CalcViewRotation r ECustomViewportType.CVT_OrthoXZ =
        FViewRotationMatrix.Fixed M ∧
      IsSignedPermutation M.Rotation3 ∧
      M.Rotation3 * Matrix.transpose M.Rotation3 = 1 ∧
      M.Rotation3.det = 1 ∧
      M.HasUnitLastRowAndColumn := by
  refine ⟨_, rfl, ?_, ?_, ?_, ?_⟩
  · refine IsSignedPermutation_of_entries _ ![0, 2, 1] ![0, 2, 1] ?_ ?_ ?_
    · intro i j; fin_cases i <;> fin_cases j <;> simp [FMatrix.Rotation3]
    · intro i; fin_cases i <;> refine ⟨by simp [FMatrix.Rotation3], fun k => ?_⟩ <;>
        fin_cases k <;> simp [FMatrix.Rotation3]
    · intro j; fin_cases j <;> refine ⟨by simp [FMatrix.Rotation3], fun k => ?_⟩ <;>
        fin_cases k <;> simp [FMatrix.Rotation3]
  · ext i j; fin_cases i <;> fin_cases j <;>
      simp [FMatrix.Rotation3, Matrix.mul_apply, Fin.sum_univ_three]
  · simp [FMatrix.Rotation3, Matrix.det_fin_three]
  · exact ⟨rfl, rfl, rfl, rfl⟩

theorem CalcViewRotation_OrthoYZ (r : FRotator) :
    ∃ M : FMatrix, CalcViewRotation r ECustomViewportType.CVT_OrthoYZ =
        FViewRotationMatrix.Fixed M ∧
      IsSignedPermutation M.Rotation3 ∧
      M.Rotation3 * Matrix.transpose M.Rotation3 = 1 ∧
      M.Rotation3.det = 1 ∧
      M.HasUnitLastRowAndColumn := by
  refine ⟨_, rfl, ?_, ?_, ?_, ?_⟩
  · refine IsSignedPermutation_of_entries _ ![2, 0, 1] ![1, 2, 0] ?_ ?_ ?_
    · intro i j; fin_cases i <;> fin_cases j <;> simp [FMatrix.Rotation3]
    · intro i; fin_cases i <;> refine ⟨by simp [FMatrix.Rotation3], fun k => ?_⟩ <;>
        fin_cases k <;> simp [FMatrix.Rotation3]
    · intro j; fin_cases j <;> refine ⟨by simp [FMatrix.Rotation3], fun k => ?_⟩ <;>
        fin_cases k <;> simp [FMatrix.Rotation3]
  · ext i j; fin_cases i <;> fin_cases j <;>
      simp [FMatrix.Rotation3, Matrix.mul_apply, Fin.sum_univ_three]
  · simp [FMatrix.Rotation3, Matrix.det_fin_three]
  · exact ⟨rfl, rfl, rfl, rfl⟩

theorem CalcViewRotation_OrthoNegativeXY (r : FRotator) :
    ∃ M : FMatrix, CalcViewRotation r ECustomViewportType.CVT_OrthoNegativeXY =
        FViewRotationMatrix.Fixed M ∧
      IsSignedPermutation M.Rotation3 ∧
      M.Rotation3 * Matrix.transpose M.Rotation3 = 1 ∧
      M.Rotation3.det = 1 ∧
      M.HasUnitLastRowAndColumn := by
  refine ⟨_, rfl, ?_, ?_, ?_, ?_⟩
  · refine IsSignedPermutation_of_entries _ ![0, 1, 2] ![0, 1, 2] ?_ ?_ ?_
    · intro i j; fin_cases i <;> fin_cases j <;> simp [FMatrix.Rotation3]
    · intro i; fin_cases i <;> refine ⟨by simp [FMatrix.Rotation3], fun k => ?_⟩ <;>
        fin_cases k <;> simp [FMatrix.Rotation3]
    · intro j; fin_cases j <;> refine ⟨by simp [FMatrix.Rotation3], fun k => ?_⟩ <;>
        fin_cases k <;> simp [FMatrix.Rotation3]
  · ext i j; fin_cases i <;> fin_cases j <;>
      simp [FMatrix.Rotation3, Matrix.mul_apply, Fin.sum_univ_three]
  · simp [FMatrix.Rotation3, Matrix.det_fin_three]
  · exact ⟨rfl, rfl, rfl, rfl⟩

theorem CalcViewRotation_OrthoNegativeXZ (r : FRotator) :
    ∃ M : FMatrix, CalcViewRotation r ECustomViewportType.CVT_OrthoNegativeXZ =
        FViewRotationMatrix.Fixed M ∧
      IsSignedPermutation M.Rotation3 ∧
      M.Rotation3 * Matrix.transpose M.Rotation3 = 1 ∧
      M.Rotation3.det = 1 ∧
      M.HasUnitLastRowAndColumn := by
  refine ⟨_, rfl, ?_, ?_, ?_, ?_⟩
  · refine IsSignedPermutation_of_entries _ ![0, 2, 1] ![0, 2, 1] ?_ ?_ ?_
    · intro i j; fin_cases i <;> fin_cases j <;> simp [FMatrix.Rotation3]
    · intro i; fin_cases i <;> refine ⟨by simp [FMatrix.Rotation3], fun k => ?_⟩ <;>
        fin_cases k <;> simp [FMatrix.Rotation3]
    · intro j; fin_cases j <;> refine ⟨by simp [FMatrix.Rotation3], fun k => ?_⟩ <;>
        fin_cases k <;> simp [FMatrix.Rotation3]
  · ext i j; fin_cases i <;> fin_cases j <;>
      simp [FMatrix.Rotation3, Matrix.mul_apply, Fin.sum_univ_three]
  · simp [FMatrix.Rotation3, Matrix.det_fin_three]
  · exact ⟨rfl, rfl, rfl, rfl⟩

theorem CalcViewRotation_OrthoNegativeYZ (r : FRotator) :
    ∃ M : FMatrix, CalcViewRotation r ECustomViewportType.CVT_OrthoNegativeYZ =
        FViewRotationMatrix.Fixed M ∧
      IsSignedPermutation M.Rotation3 ∧
      M.Rotation3 * Matrix.transpose M.Rotation3 = 1 ∧
      M.Rotation3.det = 1 ∧
      M.HasUnitLastRowAndColumn := by
  refine ⟨_, rfl, ?_, ?_, ?_, ?_⟩
  · refine IsSignedPermutation_of_entries _ ![2, 0, 1] ![1, 2, 0] ?_ ?_ ?_
    · intro i j; fin_cases i <;> fin_cases j <;> simp [FMatrix.Rotation3]
    · intro i; fin_cases i <;> refine ⟨by simp [FMatrix.Rotation3], fun k => ?_⟩ <;>
        fin_cases k <;> simp [FMatrix.Rotation3]
    · intro j; fin_cases j <;> refine ⟨by simp [FMatrix.Rotation3], fun k => ?_⟩ <;>
        fin_cases k <;> simp [FMatrix.Rotation3]
  · ext i j; fin_cases i <;> fin_cases j <;>
      simp [FMatrix.Rotation3, Matrix.mul_apply, Fin.sum_univ_three]
  · simp [FMatrix.Rotation3, Matrix.det_fin_three]
  · exact ⟨rfl, rfl, rfl, rfl⟩

theorem CalcViewRotation_fixed_ortho (r : FRotator) (t : ECustomViewportType)
    (ht : IsFixedOrtho t = true) :
    ∃ M : FMatrix, CalcViewRotation r t = FViewRotationMatrix.Fixed M ∧
      IsSignedPermutation M.Rotation3 ∧
      M.Rotation3 * Matrix.transpose M.Rotation3 = 1 ∧
      M.Rotation3.det = 1 ∧
      M.HasUnitLastRowAndColumn := by
  cases t with
  | CVT_Perspective => exact Bool.noConfusion ht
  | CVT_OrthoXY => exact CalcViewRotation_OrthoXY r
  | CVT_OrthoXZ => exact CalcViewRotation_OrthoXZ r
  | CVT_OrthoYZ => exact CalcViewRotation_OrthoYZ r
  | CVT_OrthoNegativeXY => exact CalcViewRotation_OrthoNegativeXY r
  | CVT_OrthoNegativeXZ => exact CalcViewRotation_OrthoNegativeXZ r
  | CVT_OrthoNegativeYZ => exact CalcViewRotation_OrthoNegativeYZ r
  | CVT_OrthoFreelook => exact Bool.noConfusion ht

theorem CalcViewRotation_negative_variant (r : FRotator) (t n : ECustomViewportType)
    (hn : NegativeVariant t = some n) :
    ∃ Mp Mn : FMatrix, CalcViewRotation r t = FViewRotationMatrix.Fixed Mp ∧
      CalcViewRotation r n = FViewRotationMatrix.Fixed Mn ∧
      Mn.Column3 1 = Mp.Column3 1 ∧
      Mn.Column3 0 = -Mp.Column3 0 ∧
      Mn.Column3 2 = -Mp.Column3 2 := by
  cases t <;> simp only [NegativeVariant, Option.some.injEq] at hn <;> try exact Option.noConfusion hn
  all_goals
    subst hn
    refine ⟨_, _, rfl, rfl, ?_, ?_, ?_⟩ <;>
      (funext i; fin_cases i <;> simp [FMatrix.Column3, FMatrix.Rotation3])

/-- C19. For each of the six fixed orthographic variants the view rotation
matrix of `CalcSceneView` is a fixed matrix whose 3x3 part is a signed
permutation matrix, is orthogonal (`M * Mᵀ = 1`) and has determinant 1, and
whose last row and last column are (0, 0, 0, 1); for each axis pair the matrix
of the Negative variant has the same up column (column 1) as the matrix of the
positive variant and the negated right and depth columns (columns 0 and 2). -/
theorem C19_ortho_view_rotation_matrices (K : FEngineConstants) (NearClip : ℚ)
    (c : FCustomViewportClient) (RawSize : FIntPoint) (r : FRotator) :
    (CalcSceneView K NearClip c RawSize).ViewRotationMatrix =
      CalcViewRotation c.ViewRotation c.ViewportType ∧
    (∀ t, IsFixedOrtho t = true →
      ∃ M : FMatrix, CalcViewRotation r t = FViewRotationMatrix.Fixed M ∧
        IsSignedPermutation M.Rotation3 ∧
        M.Rotation3 * Matrix.transpose M.Rotation3 = 1 ∧
        M.Rotation3.det = 1 ∧
        M.HasUnitLastRowAndColumn) ∧
    (∀ t n, NegativeVariant t = some n →
      IsFixedOrtho t = true ∧ IsFixedOrtho n = true ∧
      ∃ Mp Mn : FMatrix, CalcViewRotation r t = FViewRotationMatrix.Fixed Mp ∧
        CalcViewRotation r n = FViewRotationMatrix.Fixed Mn ∧
        Mn.Column3 1 = Mp.Column3 1 ∧
        Mn.Column3 0 = -Mp.Column3 0 ∧
        Mn.Column3 2 = -Mp.Column3 2) := by
  refine ⟨rfl, CalcViewRotation_fixed_ortho r, ?_⟩
  intro t n hn
  refine ⟨?_, ?_, CalcViewRotation_negative_variant r t n hn⟩
  · cases t <;> simp [NegativeVariant] at hn <;> rfl
  · cases t <;> simp [NegativeVariant] at hn <;> subst hn <;> rfl

/-- C19 at the front view `CVT_OrthoXZ` and its Negative counterpart. -/
theorem C19_ortho_view_rotation_matrices_witness :
    (∃ M : FMatrix, CalcViewRotation ⟨0, 0, 0⟩ ECustomViewportType.CVT_OrthoXZ =
        FViewRotationMatrix.Fixed M ∧
      IsSignedPermutation M.Rotation3 ∧
      M.Rotation3 * Matrix.transpose M.Rotation3 = 1 ∧
      M.Rotation3.det = 1 ∧
      M.HasUnitLastRowAndColumn) ∧
    (IsFixedOrtho ECustomViewportType.CVT_OrthoXZ = true ∧
      IsFixedOrtho ECustomViewportType.CVT_OrthoNegativeXZ = true ∧
      ∃ Mp Mn : FMatrix, CalcViewRotation ⟨0, 0, 0⟩ ECustomViewportType.CVT_OrthoXZ =
          FViewRotationMatrix.Fixed Mp ∧
        CalcViewRotation ⟨0, 0, 0⟩ ECustomViewportType.CVT_OrthoNegativeXZ =
          FViewRotationMatrix.Fixed Mn ∧
        Mn.Column3 1 = Mp.Column3 1 ∧
        Mn.Column3 0 = -Mp.Column3 0 ∧
        Mn.Column3 2 = -Mp.Column3 2) :=
  ⟨(C19_ortho_view_rotation_matrices sampleConstants 10 sampleClient ⟨800, 600⟩ ⟨0, 0, 0⟩).2.1
      ECustomViewportType.CVT_OrthoXZ rfl,
    (C19_ortho_view_rotation_matrices sampleConstants 10 sampleClient ⟨800, 600⟩ ⟨0, 0, 0⟩).2.2
      ECustomViewportType.CVT_OrthoXZ ECustomViewportType.CVT_OrthoNegativeXZ rfl⟩

/-! ## C14: lengths as text -/

theorem TruncToInt_eq (x : ℚ) (z : Int) (h0 : 0 ≤ x) (h1 : (z : ℚ) ≤ x) (h2 : x < (z : ℚ) + 1) :
    TruncToInt x = z := by
  unfold TruncToInt
  rw [if_pos h0, Int.floor_eq_iff]
  exact ⟨h1, h2⟩

theorem TruncLog10_eq (U : ℚ) (k : Nat) (h1 : ((10 : ℚ) ^ k) ≤ U) (h2 : U < (10 : ℚ) ^ (k + 1)) :
    TruncLog10 U = (k : Int) := by
  have hone : (1 : ℚ) ≤ U := le_trans (one_le_pow₀ (by norm_num)) h1
  unfold TruncLog10
  rw [if_pos hone]
  congr 1
  have hfl : (0 : Int) ≤ Int.floor U := Int.floor_nonneg.2 (by linarith)
  apply Nat.log_eq_of_pow_le_of_lt_pow
  · have : ((10 ^ k : Nat) : Int) ≤ Int.floor U := by
      rw [Int.le_floor]; push_cast; exact h1
    omega
  · have : Int.floor U < ((10 ^ (k + 1) : Nat) : Int) := by
      rw [Int.floor_lt]; push_cast; exact h2
    omega

theorem UnrealUnitsToSiUnits_123 :
    UnrealUnitsToSiUnits (1 / 10000) 123 =
      { Approximation := true, ScaledNumber := 1, OneDecimal := false, Exponent := -1,
        UnitIndex := 1 } := by
  have hlog : TruncLog10 (123 * 10) = 3 := by
    have := TruncLog10_eq (123 * 10) 3 (by norm_num) (by norm_num)
    simpa using this
  have hpos : (123 : ℚ) * 10 > 0 := by norm_num
  have hE : Int.tdiv (3 - 6) 3 = -1 := by decide
  have hT : Int.tdiv 3 3 = 1 := by decide
  have hS : Int.tmod 3 (max 1 1 * 3) = 0 := by decide
  have ht1 : TruncToInt ((123 : ℚ) / 10) = 12 :=
    TruncToInt_eq _ 12 (by norm_num) (by norm_num) (by norm_num)
  have ht2 : TruncToInt ((6 : ℚ) / 5) = 1 :=
    TruncToInt_eq _ 1 (by norm_num) (by norm_num) (by norm_num)
  have ht3 : TruncToInt (1 : ℚ) = 1 :=
    TruncToInt_eq _ 1 (by norm_num) (by norm_num) (by norm_num)
  simp only [UnrealUnitsToSiUnits, hpos, if_true, hlog, hE, hT, hS]
  norm_num [Fmod, ht1, ht2, ht3]

theorem UnrealUnitsToSiUnits_150 :
    UnrealUnitsToSiUnits (1 / 10000) 150 =
      { Approximation := true, ScaledNumber := 1, OneDecimal := false, Exponent := -1,
        UnitIndex := 1 } := by
  have hlog : TruncLog10 (150 * 10) = 3 := by
    have := TruncLog10_eq (150 * 10) 3 (by norm_num) (by norm_num)
    simpa using this
  have hpos : (150 : ℚ) * 10 > 0 := by norm_num
  have hE : Int.tdiv (3 - 6) 3 = -1 := by decide
  have hT : Int.tdiv 3 3 = 1 := by decide
  have hS : Int.tmod 3 (max 1 1 * 3) = 0 := by decide
  have ht1 : TruncToInt (15 : ℚ) = 15 :=
    TruncToInt_eq _ 15 (by norm_num) (by norm_num) (by norm_num)
  have ht2 : TruncToInt ((3 : ℚ) / 2) = 1 :=
    TruncToInt_eq _ 1 (by norm_num) (by norm_num) (by norm_num)
  have ht3 : TruncToInt (1 : ℚ) = 1 :=
    TruncToInt_eq _ 1 (by norm_num) (by norm_num) (by norm_num)
  simp only [UnrealUnitsToSiUnits, hpos, if_true, hlog, hE, hT, hS]
  norm_num [Fmod, ht1, ht2, ht3]

theorem SpecTruncateToTwoSignificantFigures_of_unit_range (X : ℚ) (z : Int)
    (h1 : 1 ≤ X) (h2 : X < 10) (hz1 : (z : ℚ) ≤ X * 10) (hz2 : X * 10 < (z : ℚ) + 1) :
    SpecTruncateToTwoSignificantFigures X = (z : ℚ) / 10 := by
  have hfl : Int.floor X < 10 := by rw [Int.floor_lt]; exact_mod_cast h2
  have hfl0 : 1 ≤ Int.floor X := by rw [Int.le_floor]; exact_mod_cast h1
  have hlog : Nat.log 10 (Int.floor X).toNat = 0 := by
    apply Nat.log_of_lt
    omega
  have hfloor : Int.floor (X / (10 : ℚ) ^ ((0 : Int) - 1)) = z := by
    rw [Int.floor_eq_iff]
    have : X / (10 : ℚ) ^ ((0 : Int) - 1) = X * 10 := by norm_num; ring
    rw [this]
    exact ⟨hz1, hz2⟩
  unfold SpecTruncateToTwoSignificantFigures
  simp only [h1, if_true, hlog, Nat.cast_zero, hfloor]
  norm_num
  ring

/-- C14: the code at the failing inputs.  For 123 cm the scaled value is
1.23 m, whose truncation to two significant figures is 1.2, and for 150 cm it
is 1.5 m, which has two significant figures already; in both cases
`UnrealUnitsToSiUnits` prints the number 1 as an integer with the unit of index
1 (m) and the tilde prefix, because the rounded value is stored in an `int32`. -/
theorem C14_two_significant_figures_lost_in_int32 :
    UnrealUnitsToSiUnits (1 / 10000) 123 =
      { Approximation := true, ScaledNumber := 1, OneDecimal := false, Exponent := -1,
        UnitIndex := 1 } ∧
    SpecTruncateToTwoSignificantFigures (123 / 100) = 12 / 10 ∧
    UnrealUnitsToSiUnits (1 / 10000) 150 =
      { Approximation := true, ScaledNumber := 1, OneDecimal := false, Exponent := -1,
        UnitIndex := 1 } ∧
    SpecTruncateToTwoSignificantFigures (150 / 100) = 150 / 100 := by
  refine ⟨UnrealUnitsToSiUnits_123, ?_, UnrealUnitsToSiUnits_150, ?_⟩
  · have := SpecTruncateToTwoSignificantFigures_of_unit_range (123 / 100) 12
      (by norm_num) (by norm_num) (by norm_num) (by norm_num)
    rw [this]; norm_num
  · have := SpecTruncateToTwoSignificantFigures_of_unit_range (150 / 100) 15
      (by norm_num) (by norm_num) (by norm_num) (by norm_num)
    rw [this]; norm_num

end ViewportWidget
